import Mathlib

/-!
Verification development for the Instagram scrape-and-enrich pipeline.

Each Python module under `app/instagram` and `app/services` that the
claims touch is shallowly embedded as executable Lean definitions:
pure helpers become Lean functions, JSON payloads become an inductive
`Json` value, HTTP traffic becomes explicit response oracles, and
exceptions become `Except` results.
-/

namespace VideoAnalyzer

/-- Characters accepted by the shortcode pattern `[A-Za-z0-9_-]` in
`app/instagram/url_utils.py` (`_SHORTCODE_RE`). -/
def isShortcodeChar (c : Char) : Bool :=
  c.isAlpha || c.isDigit || c = '_' || c = '-'

/-- Split a character list at every occurrence of the separator,
mirroring Python `str.split(sep)` (always at least one segment). -/
def splitOnChar (sep : Char) : List Char → List (List Char)
  | [] => [[]]
  | c :: rest =>
    match splitOnChar sep rest with
    | [] => if c = sep then [[], []] else [[c]]
    | seg :: segs => if c = sep then [] :: seg :: segs else (c :: seg) :: segs

/-- Split a character list at the first occurrence of the separator. -/
def splitFirst (sep : Char) : List Char → Option (List Char × List Char)
  | [] => none
  | c :: rest =>
    if c = sep then some ([], rest)
    else
      match splitFirst sep rest with
      | none => none
      | some (pre, post) => some (c :: pre, post)

/-- Take the longest prefix not containing a slash, returning it with
the remainder (used to separate the network location from the path). -/
def spanNotSlash : List Char → List Char × List Char
  | [] => ([], [])
  | c :: rest =>
    if c = '/' then ([], c :: rest)
    else
      let p := spanNotSlash rest
      (c :: p.1, p.2)

/-- Scheme characters allowed after the first letter by
`urllib.parse.urlparse`. -/
def isSchemeChar (c : Char) : Bool :=
  c.isAlphanum || c = '+' || c = '-' || c = '.'

/-- Result of `urllib.parse.urlparse` restricted to the components this
repository reads (`scheme`, `netloc`, `path`). -/
structure PyUrl where
  scheme : String
  netloc : String
  path : String
deriving Repr, DecidableEq

/-- Models `urllib.parse.urlparse` (Python standard library) for
absolute URLs of the shape `scheme://netloc/path`; inputs without a
valid `scheme://` prefix are mapped to an all-path result, which the
caller rejects identically to the Python original. -/
def urlparse (url : String) : PyUrl :=
  match splitFirst ':' url.data with
  | none => ⟨"", "", url⟩
  | some (sch, rest) =>
    match sch with
    | [] => ⟨"", "", url⟩
    | c0 :: schRest =>
      if c0.isAlpha && schRest.all isSchemeChar && rest.take 2 = ['/', '/'] then
        let hp := spanNotSlash (rest.drop 2)
        ⟨String.mk ((c0 :: schRest).map Char.toLower), String.mk hp.1, String.mk hp.2⟩
      else ⟨"", "", url⟩

/-- `_VALID_PATH_PREFIXES` from `url_utils.py`. -/
def validPathTokens : List (List Char) :=
  ["p".data, "reel".data, "reels".data, "tv".data]

/-- `_CANONICAL_SEGMENT` lookup: the alias `reels` maps to `reel`,
anything else is unchanged. -/
def canonicalSegment (e : List Char) : List Char :=
  if e = "reels".data then "reel".data else e

/-- Non-empty segments of the URL path (`[part for part in
parsed.path.split("/") if part]`). -/
def pathParts (path : List Char) : List (List Char) :=
  (splitOnChar '/' path).filter (fun part => part ≠ [])

/-- Whether a path segment, lowercased, is a recognized entity token. -/
def tokenMatch (part : List Char) : Bool :=
  validPathTokens.contains (part.map Char.toLower)

/-- The `for idx, part in enumerate(path_parts)` scan of `url_utils.py`:
index of the first recognized entity segment. -/
def findEntityIdx (i : Nat) : List (List Char) → Option Nat
  | [] => none
  | part :: rest =>
    if tokenMatch part then some i else findEntityIdx (i + 1) rest

/-- `ParsedInstagramUrl` dataclass from `url_utils.py`. -/
structure ParsedInstagramUrl where
  entity : String
  shortcode : String
  canonical_url : String
deriving Repr, DecidableEq

/-- Core of `parse_instagram_url`, operating on the two `urlparse`
components the source reads (`parsed.scheme` and `parsed.path`). An
`Except.error` models raising `InvalidInstagramUrlError`. -/
def parse_from_components (scheme : String) (path : List Char) :
    Except String ParsedInstagramUrl :=
  if ¬ (scheme = "http" ∨ scheme = "https") then
    .error "URL must use http or https scheme"
  else
    let parts := pathParts path
    if parts.length < 2 then .error "Unsupported Instagram URL format"
    else
      match findEntityIdx 0 parts with
      | none => .error "Unsupported Instagram URL format"
      | some idx =>
        if idx + 1 ≥ parts.length then .error "Unsupported Instagram URL format"
        else
          let entity := (parts.getD idx []).map Char.toLower
          let shortcode := parts.getD (idx + 1) []
          if ¬ (shortcode ≠ [] ∧ shortcode.all isShortcodeChar) then
            .error "Invalid Instagram shortcode"
          else
            let ce := canonicalSegment entity
            .ok ⟨String.mk ce, String.mk shortcode,
              "https://www.instagram.com/" ++ String.mk ce ++ "/" ++
                String.mk shortcode ++ "/"⟩

/-- `parse_instagram_url` from `app/instagram/url_utils.py`. -/
def parse_instagram_url (url : String) : Except String ParsedInstagramUrl :=
  let parsed := urlparse url
  parse_from_components parsed.scheme parsed.path.data

theorem splitOnChar_ne_nil (sep : Char) (xs : List Char) :
    splitOnChar sep xs ≠ [] := by
  cases xs with
  | nil => simp [splitOnChar]
  | cons c rest =>
    simp only [splitOnChar]
    cases splitOnChar sep rest with
    | nil => by_cases hc : c = sep <;> simp [hc]
    | cons seg segs => by_cases hc : c = sep <;> simp [hc]

theorem splitOnChar_append (sep : Char) (xs ys : List Char)
    (h : ∀ c ∈ xs, c ≠ sep) :
    splitOnChar sep (xs ++ sep :: ys) = xs :: splitOnChar sep ys := by
  induction xs with
  | nil =>
    simp only [List.nil_append, splitOnChar]
    cases hys : splitOnChar sep ys with
    | nil => exact absurd hys (splitOnChar_ne_nil sep ys)
    | cons seg segs => simp
  | cons c rest ih =>
    have hc : c ≠ sep := h c (by simp)
    have hrec := ih (fun d hd => h d (by simp [hd]))
    show splitOnChar sep (c :: (rest ++ sep :: ys)) = _
    rw [splitOnChar, hrec]
    simp [hc]

theorem splitFirst_append (sep : Char) (xs ys : List Char)
    (h : ∀ c ∈ xs, c ≠ sep) :
    splitFirst sep (xs ++ sep :: ys) = some (xs, ys) := by
  induction xs with
  | nil => simp [splitFirst]
  | cons c rest ih =>
    have hc : c ≠ sep := h c (by simp)
    have hrec := ih (fun d hd => h d (by simp [hd]))
    simp [splitFirst, hrec, hc]

theorem spanNotSlash_append (xs ys : List Char) (h : ∀ c ∈ xs, c ≠ '/') :
    spanNotSlash (xs ++ '/' :: ys) = (xs, '/' :: ys) := by
  induction xs with
  | nil => simp [spanNotSlash]
  | cons c rest ih =>
    have hc : c ≠ '/' := h c (by simp)
    have hrec := ih (fun d hd => h d (by simp [hd]))
    simp [spanNotSlash, hrec, hc]

theorem data_mk (l : List Char) : (String.mk l).data = l := rfl

theorem mk_data (s : String) : String.mk s.data = s := rfl

/-- ASCII model of Python `str.strip` (whitespace at both ends). -/
def pyStrip (s : String) : String :=
  String.mk (((s.data.dropWhile Char.isWhitespace).reverse.dropWhile
    Char.isWhitespace).reverse)

/-- Python `str.lower` (ASCII model). -/
def pyLower (s : String) : String :=
  String.mk (s.data.map Char.toLower)

/-- `urlparse` on any URL of the canonical host shape. -/
theorem urlparse_https_www (rest : List Char) :
    urlparse (String.mk ("https://www.instagram.com/".data ++ rest)) =
      ⟨"https", "www.instagram.com", String.mk ('/' :: rest)⟩ := by
  have h1 : "https://www.instagram.com/".data ++ rest =
      ['h', 't', 't', 'p', 's'] ++ ':' ::
        ('/' :: '/' :: ("www.instagram.com".data ++ '/' :: rest)) := by
    have hc : "https://www.instagram.com/".data =
        (['h', 't', 't', 'p', 's'] ++ ':' :: '/' :: '/' :: "www.instagram.com".data)
          ++ ['/'] := by decide
    rw [hc, List.append_assoc]
    rfl
  have hsf : splitFirst ':' (['h', 't', 't', 'p', 's'] ++ ':' ::
      ('/' :: '/' :: ("www.instagram.com".data ++ '/' :: rest))) =
      some (['h', 't', 't', 'p', 's'],
        '/' :: '/' :: ("www.instagram.com".data ++ '/' :: rest)) :=
    splitFirst_append ':' _ _ (by decide)
  have hspan : spanNotSlash ("www.instagram.com".data ++ '/' :: rest) =
      ("www.instagram.com".data, '/' :: rest) :=
    spanNotSlash_append _ _ (by decide)
  rw [urlparse, data_mk, h1, hsf]
  simp only [List.take, List.drop, hspan]
  norm_num
  rfl

theorem findEntityIdx_some (l : List (List Char)) (i idx : Nat)
    (h : findEntityIdx i l = some idx) :
    i ≤ idx ∧ idx - i < l.length ∧ tokenMatch (l.getD (idx - i) []) = true := by
  induction l generalizing i with
  | nil => simp [findEntityIdx] at h
  | cons part rest ih =>
    rw [findEntityIdx] at h
    by_cases hp : tokenMatch part
    · rw [if_pos hp] at h
      injection h with h
      subst h
      simp [hp]
    · rw [if_neg hp] at h
      obtain ⟨h1, h2, h3⟩ := ih (i + 1) h
      refine ⟨by omega, by simp; omega, ?_⟩
      have hd : idx - i = (idx - (i + 1)) + 1 := by omega
      rw [hd]
      simpa using h3

theorem parse_from_components_ok (scheme : String) (path : List Char)
    (r : ParsedInstagramUrl) (h : parse_from_components scheme path = .ok r) :
    ∃ idx, findEntityIdx 0 (pathParts path) = some idx ∧
      ((pathParts path).getD (idx + 1) []) ≠ [] ∧
      ((pathParts path).getD (idx + 1) []).all isShortcodeChar = true ∧
      r = ⟨String.mk (canonicalSegment (((pathParts path).getD idx []).map Char.toLower)),
        String.mk ((pathParts path).getD (idx + 1) []),
        "https://www.instagram.com/" ++
          String.mk (canonicalSegment (((pathParts path).getD idx []).map Char.toLower)) ++
          "/" ++ String.mk ((pathParts path).getD (idx + 1) []) ++ "/"⟩ := by
  rw [parse_from_components] at h
  simp only [] at h
  split at h
  · exact absurd h (by simp)
  · split at h
    · exact absurd h (by simp)
    · split at h
      · exact absurd h (by simp)
      · rename_i idx hidx
        split at h
        · exact absurd h (by simp)
        · split at h
          · exact absurd h (by simp)
          · rename_i hcond
            push_neg at hcond
            injection h with h
            exact ⟨idx, hidx, hcond.1, hcond.2, h.symm⟩

/-- The canonical entity produced by a successful parse is `p`, `reel`
or `tv` (never the raw alias `reels`). -/
theorem canonicalSegment_of_tokenMatch (part : List Char)
    (h : tokenMatch part = true) :
    canonicalSegment (part.map Char.toLower) = "p".data ∨
    canonicalSegment (part.map Char.toLower) = "reel".data ∨
    canonicalSegment (part.map Char.toLower) = "tv".data := by
  rw [tokenMatch] at h
  have hmem : (part.map Char.toLower) ∈ validPathTokens :=
    List.mem_of_elem_eq_true h
  simp only [validPathTokens, List.mem_cons, List.not_mem_nil, or_false] at hmem
  rcases hmem with he | he | he | he <;> rw [he] <;> decide

theorem parse_canonical_components (ce sc : List Char)
    (hce1 : ce ≠ []) (hce2 : ∀ c ∈ ce, c ≠ '/')
    (htok : tokenMatch ce = true)
    (hlower : ce.map Char.toLower = ce)
    (hnotalias : ce ≠ "reels".data)
    (hne : sc ≠ []) (hall : sc.all isShortcodeChar = true) :
    parse_from_components "https" ('/' :: (ce ++ '/' :: (sc ++ ['/']))) =
      .ok ⟨String.mk ce, String.mk sc,
        "https://www.instagram.com/" ++ String.mk ce ++ "/" ++
          String.mk sc ++ "/"⟩ := by
  have hslash : ∀ c ∈ sc, c ≠ '/' := by
    intro c hc hceq
    have hh := List.all_eq_true.mp hall c hc
    rw [hceq] at hh
    exact absurd hh (by decide)
  have hsplit : splitOnChar '/' ('/' :: (ce ++ '/' :: (sc ++ ['/']))) =
      [[], ce, sc, []] := by
    have h0 := splitOnChar_append '/' [] (ce ++ '/' :: (sc ++ ['/'])) (by simp)
    simp only [List.nil_append] at h0
    rw [h0, splitOnChar_append '/' ce (sc ++ ['/']) hce2]
    rw [show (sc ++ ['/']) = sc ++ '/' :: [] from rfl,
      splitOnChar_append '/' sc [] hslash]
    rfl
  have hparts : pathParts ('/' :: (ce ++ '/' :: (sc ++ ['/']))) = [ce, sc] := by
    rw [pathParts, hsplit]
    simp [hne, hce1]
  rw [parse_from_components, if_neg (by simp)]
  simp only []
  rw [hparts]
  have hfind : findEntityIdx 0 [ce, sc] = some 0 := by
    rw [findEntityIdx, if_pos htok]
  simp only [hfind, List.length_cons, List.length_nil, List.getD_cons_zero,
    List.getD_cons_succ]
  norm_num
  have hcond : ¬(¬sc = [] → ∃ x ∈ sc, isShortcodeChar x = false) := by
    intro himp
    obtain ⟨x, hx, hfalse⟩ := himp hne
    have hx2 := List.all_eq_true.mp hall x hx
    rw [hx2] at hfalse
    cases hfalse
  rw [if_neg hcond]
  rw [hlower]
  simp only [canonicalSegment]
  rw [if_neg hnotalias]

/-- The lowercased first recognized entity segment of the URL path (the
raw token the source scans for, before alias canonicalization). -/
def rawEntity (url : String) : Option String :=
  let parts := pathParts (urlparse url).path.data
  match findEntityIdx 0 parts with
  | none => none
  | some idx => some (String.mk ((parts.getD idx []).map Char.toLower))

theorem canonical_url_mk (ce sc : List Char) :
    ("https://www.instagram.com/" ++ String.mk ce ++ "/" ++ String.mk sc ++ "/") =
      String.mk ("https://www.instagram.com/".data ++ (ce ++ '/' :: (sc ++ ['/']))) := by
  apply String.ext
  have hs : "/".data = ['/'] := rfl
  simp [String.data_append, data_mk, hs]

theorem parse_canonical_url (ce sc : List Char)
    (hce : ce = "p".data ∨ ce = "reel".data ∨ ce = "tv".data)
    (hne : sc ≠ []) (hall : sc.all isShortcodeChar = true) :
    parse_instagram_url
        ("https://www.instagram.com/" ++ String.mk ce ++ "/" ++ String.mk sc ++ "/") =
      .ok ⟨String.mk ce, String.mk sc,
        "https://www.instagram.com/" ++ String.mk ce ++ "/" ++ String.mk sc ++ "/"⟩ := by
  have hcomp : parse_instagram_url
      ("https://www.instagram.com/" ++ String.mk ce ++ "/" ++ String.mk sc ++ "/") =
      parse_from_components "https" ('/' :: (ce ++ '/' :: (sc ++ ['/']))) := by
    rw [canonical_url_mk, parse_instagram_url]
    simp only []
    rw [urlparse_https_www]
  rw [hcomp]
  rcases hce with rfl | rfl | rfl
  · exact parse_canonical_components _ _ (by decide) (by decide) (by decide)
      (by decide) (by decide) hne hall
  · exact parse_canonical_components _ _ (by decide) (by decide) (by decide)
      (by decide) (by decide) hne hall
  · exact parse_canonical_components _ _ (by decide) (by decide) (by decide)
      (by decide) (by decide) hne hall

/-- C4: for every accepted URL, the canonical entity equals the raw
recognized token with `reels` replaced by `reel` (others unchanged), and
parsing the produced `canonical_url` again returns the identical
`(entity, shortcode, canonical_url)` triple. -/
theorem C4_alias_normalization_and_idempotence (url : String)
    (r : ParsedInstagramUrl) (h : parse_instagram_url url = .ok r) :
    (∀ e, rawEntity url = some e →
      r.entity = if e = "reels" then "reel" else e) ∧
    parse_instagram_url r.canonical_url = .ok r := by
  have h' : parse_from_components (urlparse url).scheme
      (urlparse url).path.data = .ok r := h
  obtain ⟨idx, hfind, hne, hall, hr⟩ := parse_from_components_ok _ _ _ h'
  obtain ⟨-, hlen, htokm⟩ := findEntityIdx_some _ 0 idx hfind
  simp only [Nat.sub_zero] at hlen htokm
  have hent : r.entity = String.mk (canonicalSegment
      (((pathParts (urlparse url).path.data).getD idx []).map Char.toLower)) := by
    rw [hr]
  constructor
  · intro e he
    rw [rawEntity] at he
    rw [hfind] at he
    injection he with he
    rw [← he, hent]
    by_cases hm : ((pathParts (urlparse url).path.data).getD idx []).map
        Char.toLower = "reels".data
    · rw [hm]
      decide
    · have hstr : String.mk (((pathParts (urlparse url).path.data).getD idx
          []).map Char.toLower) ≠ "reels" := by
        intro heq
        exact hm (congrArg String.data heq)
      simp only [canonicalSegment]
      rw [if_neg hm, if_neg hstr]
  · have hcc := canonicalSegment_of_tokenMatch _ htokm
    rw [hr]
    exact parse_canonical_url _ _ hcc hne hall

/-- Witness for C4 at the spec example `/reels/ABC123xyz/`. -/
theorem C4_alias_normalization_and_idempotence_witness :
    (∀ e, rawEntity "https://www.instagram.com/reels/ABC123xyz/" = some e →
      (ParsedInstagramUrl.mk "reel" "ABC123xyz"
        "https://www.instagram.com/reel/ABC123xyz/").entity =
        if e = "reels" then "reel" else e) ∧
    parse_instagram_url (ParsedInstagramUrl.mk "reel" "ABC123xyz"
        "https://www.instagram.com/reel/ABC123xyz/").canonical_url =
      .ok (ParsedInstagramUrl.mk "reel" "ABC123xyz"
        "https://www.instagram.com/reel/ABC123xyz/") :=
  C4_alias_normalization_and_idempotence
    "https://www.instagram.com/reels/ABC123xyz/" _ (by rfl)

/-- C10: every accepted URL canonicalizes to a URL whose scheme is
`https` and whose host is `www.instagram.com`, independently of the
input host: any URL with the same `urlparse` scheme and path (only the
host differing) parses to the identical result. -/
theorem C10_host_normalization (url : String) (r : ParsedInstagramUrl)
    (h : parse_instagram_url url = .ok r) :
    (urlparse r.canonical_url).scheme = "https" ∧
    (urlparse r.canonical_url).netloc = "www.instagram.com" ∧
    ∀ v : String, (urlparse v).scheme = (urlparse url).scheme →
      (urlparse v).path = (urlparse url).path →
      parse_instagram_url v = .ok r := by
  have h' : parse_from_components (urlparse url).scheme
      (urlparse url).path.data = .ok r := h
  obtain ⟨idx, hfind, hne, hall, hr⟩ := parse_from_components_ok _ _ _ h'
  have hcu : r.canonical_url = "https://www.instagram.com/" ++
      String.mk (canonicalSegment (((pathParts (urlparse url).path.data).getD
        idx []).map Char.toLower)) ++ "/" ++
      String.mk ((pathParts (urlparse url).path.data).getD (idx + 1) []) ++
      "/" := by
    rw [hr]
  refine ⟨?_, ?_, ?_⟩
  · rw [hcu, canonical_url_mk, urlparse_https_www]
  · rw [hcu, canonical_url_mk, urlparse_https_www]
  · intro v hs hp
    show parse_from_components (urlparse v).scheme (urlparse v).path.data = .ok r
    rw [hs, hp]
    exact h

/-- Witness for C10: `instagram.com` and `m.instagram.com` inputs yield
the identical canonical record. -/
theorem C10_host_normalization_witness :
    (urlparse (ParsedInstagramUrl.mk "p" "ABC123"
      "https://www.instagram.com/p/ABC123/").canonical_url).scheme = "https" ∧
    (urlparse (ParsedInstagramUrl.mk "p" "ABC123"
      "https://www.instagram.com/p/ABC123/").canonical_url).netloc =
      "www.instagram.com" ∧
    parse_instagram_url "https://m.instagram.com/p/ABC123/" =
      .ok (ParsedInstagramUrl.mk "p" "ABC123"
        "https://www.instagram.com/p/ABC123/") := by
  have H := C10_host_normalization "https://instagram.com/p/ABC123/"
    (ParsedInstagramUrl.mk "p" "ABC123" "https://www.instagram.com/p/ABC123/")
    (by rfl)
  exact ⟨H.1, H.2.1, H.2.2 "https://m.instagram.com/p/ABC123/" (by rfl) (by rfl)⟩

/-! ## JSON payload model

Raw payloads flowing through the pipeline are decoded JSON. Numbers are
modeled as integers (every count the pipeline reads is integral; float
rounding of the Python `float` type is outside the modeled domain and no
claim depends on it). A missing dictionary key reads as `Json.null`,
matching `dict.get`. -/

inductive Json where
  | null : Json
  | bool (b : Bool) : Json
  | num (n : Int) : Json
  | str (s : String) : Json
  | arr (elems : List Json) : Json
  | obj (fields : List (String × Json)) : Json
deriving Repr

/-- `dict.get(key)` with `None` (here `Json.null`) as the default. -/
def Json.get : Json → String → Json
  | .obj fields, key =>
    match fields.lookup key with
    | some v => v
    | none => .null
  | _, _ => .null

/-- `key in dict` membership test. -/
def Json.hasKey : Json → String → Bool
  | .obj fields, key => fields.any (fun f => f.1 == key)
  | _, _ => false

/-- Python truthiness of a decoded JSON value. -/
def Json.truthy : Json → Bool
  | .null => false
  | .bool b => b
  | .num n => n != 0
  | .str s => s != ""
  | .arr l => !l.isEmpty
  | .obj f => !f.isEmpty

/-- Python `a or b` on decoded JSON values. -/
def pyOr (a b : Json) : Json :=
  if a.truthy then a else b

/-- View a JSON value as an optional string (`None` and non-string
values read as absent; the pipeline only stores strings here). -/
def Json.asStrOpt : Json → Option String
  | .str s => some s
  | _ => none

/-- View a JSON value as a string with `""` default. -/
def Json.asStrD (j : Json) : String :=
  match j with
  | .str s => s
  | _ => ""

/-- Whether a JSON value is a Python `int`/`float` number. -/
def Json.isNum : Json → Bool
  | .num _ => true
  | _ => false

/-- The elements of a JSON array (non-arrays read as empty). -/
def Json.asArr : Json → List Json
  | .arr l => l
  | _ => []

/-- Python `str()` of a decoded JSON scalar (containers are outside the
modeled domain). -/
def pyStr : Json → String
  | .str s => s
  | .num n => toString n
  | .bool b => if b then "True" else "False"
  | .null => "None"
  | .arr _ => ""
  | .obj _ => ""

/-! ## Payload Parser (`app/instagram/parser.py`) -/

/-- ASCII model of the Python regex word character `\w`. -/
def isWordChar (c : Char) : Bool :=
  c.isAlphanum || c = '_'

/-- Digit-list to number. -/
def digitsToNat (l : List Char) : Nat :=
  l.foldl (fun acc c => acc * 10 + (c.toNat - '0'.toNat)) 0

/-- One scan step in the `marker(\w+)` finditer loop; the fuel bounds
the number of scan iterations (each consumes at least one character, so
the initial text length always suffices). -/
def collectTagsFuel (marker : Char) : Nat → List Char → List String
  | 0, _ => []
  | _, [] => []
  | fuel + 1, c :: rest =>
    if c = marker then
      match rest.takeWhile isWordChar with
      | [] => collectTagsFuel marker fuel rest
      | tag => String.mk tag :: collectTagsFuel marker fuel (rest.drop tag.length)
    else collectTagsFuel marker fuel rest

/-- `_collect_tags` from `parser.py`: all `marker(\w+)` matches of the
caption, in order, possibly repeating. -/
def _collect_tags (text : Option String) (marker : Char) : List String :=
  match text with
  | none => []
  | some s => if s = "" then [] else collectTagsFuel marker s.data.length s.data

/-- First `[0-9]+` run of the string with the remainder after it
(`_NUMBER_RE.search`, group start). -/
def findDigitRun : List Char → Option (List Char × List Char)
  | [] => none
  | c :: rest =>
    if c.isDigit then
      some ((c :: rest).takeWhile Char.isDigit, (c :: rest).dropWhile Char.isDigit)
    else findDigitRun rest

/-- `_decode_number_string` from `parser.py`: sentinel strings decode to
absent, `k`/`m`/`b` suffixes scale, thousands separators are stripped,
and the first `[0-9]+(?:[.][0-9]+)?` match is taken (commas were already
removed before the regex runs). Exact-rational arithmetic models the
Python `float` multiplication. -/
def _decode_number_string (raw : String) : Option Int :=
  let cleaned := pyLower (pyStrip raw)
  if cleaned = "" ∨ cleaned = "none" ∨ cleaned = "null" ∨ cleaned = "n/a" ∨
      cleaned = "na" ∨ cleaned = "nan" then none
  else
    let cs := cleaned.data
    let suffixed : Nat × List Char :=
      match cs.getLast? with
      | some 'k' => (1000, cs.dropLast)
      | some 'm' => (1000000, cs.dropLast)
      | some 'b' => (1000000000, cs.dropLast)
      | _ => (1, cs)
    let cs2 := suffixed.2.filter (fun c => c ≠ ',')
    match findDigitRun cs2 with
    | none => none
    | some (intDigits, rest) =>
      let frac : List Char :=
        match rest with
        | '.' :: r2 => r2.takeWhile Char.isDigit
        | _ => []
      if frac = [] then some (digitsToNat intDigits * suffixed.1)
      else
        some ((digitsToNat intDigits * 10 ^ frac.length + digitsToNat frac) *
          suffixed.1 / 10 ^ frac.length)

/-- `_extract_int` from `parser.py`. -/
def _extract_int : Json → Option Int
  | .null => none
  | .bool b => some (if b then 1 else 0)
  | .num n => some n
  | .str s => _decode_number_string s
  | _ => none

/-- Result of a Python `datetime` constructor invocation; the claims
only carry these values through, so the constructor and its argument are
recorded rather than calendar arithmetic being performed. -/
inductive PyDatetime where
  | fromEpoch (n : Int) : PyDatetime
  | fromYmd (y m d : Nat) : PyDatetime
  | fromIso (s : String) : PyDatetime
deriving Repr, DecidableEq

/-- Days in a month under the Gregorian leap rule. -/
def daysInMonth (y m : Nat) : Nat :=
  if m = 2 then
    if y % 4 = 0 ∧ (y % 100 ≠ 0 ∨ y % 400 = 0) then 29 else 28
  else if m = 4 ∨ m = 6 ∨ m = 9 ∨ m = 11 then 30
  else 31

/-- Whether an 8-digit string is a valid `%Y%m%d` date (as accepted by
`datetime.strptime`). -/
def validYmd (y m d : Nat) : Bool :=
  1 ≤ y ∧ 1 ≤ m ∧ m ≤ 12 ∧ 1 ≤ d ∧ d ≤ daysInMonth y m

/-- Two-digit read at an offset. -/
def natOfDigits (l : List Char) : Nat := digitsToNat l

/-- Models CPython `datetime.fromisoformat` acceptance for the common
`YYYY-MM-DD[*HH:MM[:SS[.digits]][Z|±HH:MM]]` forms. -/
def isIsoDate (s : String) : Bool :=
  let cs := s.data
  match cs with
  | y1 :: y2 :: y3 :: y4 :: '-' :: m1 :: m2 :: '-' :: d1 :: d2 :: rest =>
    let y := natOfDigits [y1, y2, y3, y4]
    let m := natOfDigits [m1, m2]
    let d := natOfDigits [d1, d2]
    ([y1, y2, y3, y4, m1, m2, d1, d2].all Char.isDigit) && validYmd y m d &&
      (match rest with
       | [] => true
       | sep :: h1 :: h2 :: ':' :: n1 :: n2 :: rest2 =>
         (sep = 'T' ∨ sep = ' ') && ([h1, h2, n1, n2].all Char.isDigit) &&
           natOfDigits [h1, h2] < 24 && natOfDigits [n1, n2] < 60 &&
           (match rest2 with
            | [] => true
            | ':' :: s1 :: s2 :: rest3 =>
              ([s1, s2].all Char.isDigit) && natOfDigits [s1, s2] < 60 &&
                (match rest3 with
                 | [] => true
                 | '.' :: ds => ds ≠ [] && ds.all Char.isDigit
                 | ['Z'] => true
                 | _ => false)
            | ['Z'] => true
            | _ => false)
       | _ => false)
  | _ => false

/-- `_parse_timestamp` from `parser.py`: epoch numbers, 8-digit
`YYYYMMDD` strings, ISO-8601 strings; anything else is absent. -/
def _parse_timestamp (value : Json) : Option PyDatetime :=
  match value with
  | .null => none
  | .bool b => some (.fromEpoch (if b then 1 else 0))
  | .num n => some (.fromEpoch n)
  | .str s =>
    let candidate := pyStrip s
    if candidate.data.all Char.isDigit ∧ candidate.data.length = 8 then
      match candidate.data with
      | [y1, y2, y3, y4, m1, m2, d1, d2] =>
        if validYmd (natOfDigits [y1, y2, y3, y4]) (natOfDigits [m1, m2])
            (natOfDigits [d1, d2]) then
          some (.fromYmd (natOfDigits [y1, y2, y3, y4]) (natOfDigits [m1, m2])
            (natOfDigits [d1, d2]))
        else none
      | _ => none
    else if isIsoDate candidate then some (.fromIso candidate) else none
  | _ => none

/-- The `formats` list of a payload (`info.get("formats") or []`). -/
def formatsOf (info : Json) : List Json :=
  (pyOr (info.get "formats") (.arr [])).asArr

/-- Formats whose `height` is numeric (`usable_formats`). -/
def usableFormats (info : Json) : List Json :=
  (formatsOf info).filter (fun entry => (entry.get "height").isNum)

/-- The `height` sort key (`entry.get("height", 0)`). -/
def heightOf (entry : Json) : Int :=
  match entry.get "height" with
  | .num n => n
  | _ => 0

/-- One comparison step of the descending-height selection. -/
def bestStep (best : Option Json) (e : Json) : Option Json :=
  match best with
  | none => some e
  | some b => if heightOf e > heightOf b then some e else some b

/-- `_get_first(sorted(usable_formats, key=height, reverse=True))`: the
first-listed entry of maximal height (Python `sorted` is stable and
`reverse=True` preserves the original order among equal keys, so the
head of the descending sort is the earliest entry with maximal key). -/
def selectBestFormat (l : List Json) : Option Json :=
  l.foldl bestStep none

/-- `_select_format_url` from `parser.py`. -/
def _select_format_url (info : Json) : Option String :=
  if (info.get "url").truthy then (info.get "url").asStrOpt
  else
    let fallbackBranch : Option String :=
      match (formatsOf info).head? with
      | some fb =>
        if fb.truthy then (pyOr (fb.get "url") (fb.get "manifest_url")).asStrOpt
        else (info.get "webpage_url").asStrOpt
      | none => (info.get "webpage_url").asStrOpt
    match selectBestFormat (usableFormats info) with
    | some fmt =>
      if fmt.truthy then (pyOr (fmt.get "url") (fmt.get "manifest_url")).asStrOpt
      else fallbackBranch
    | none => fallbackBranch

/-- First key of the list whose value decodes to an integer. -/
def firstSomeInt (payload : Json) : List String → Option Int
  | [] => none
  | k :: rest =>
    match _extract_int (payload.get k) with
    | some n => some n
    | none => firstSomeInt payload rest

/-- `_extract_view_count` from `parser.py`. -/
def _extract_view_count (payload : Json) : Option Int :=
  match firstSomeInt payload ["view_count", "viewCount", "play_count",
      "playCount", "play_count_total", "view_count_pretty",
      "play_count_pretty", "interaction_count"] with
  | some n => some n
  | none =>
    match pyOr (payload.get "statistics") (.obj []) with
    | .obj fields =>
      firstSomeInt (.obj fields) ["view_count", "viewCount", "play_count",
        "playCount", "interaction_count"]
    | _ => none

/-! ## Data model (`app/instagram/types.py`) -/

/-- `InstagramProfile` dataclass. -/
structure InstagramProfile where
  username : String
  full_name : Option String := none
  biography : Option String := none
  posts : Option Int := none
  followers : Option Int := none
  following : Option Int := none
  profile_pic_url : Option String := none
deriving Repr, DecidableEq

/-- `InstagramComment` dataclass. -/
structure InstagramComment where
  id : String
  username : String
  text : String
  like_count : Int := 0
  created_at : Option PyDatetime := none
  profile : Option InstagramProfile := none
deriving Repr, DecidableEq

/-- `InstagramPost` dataclass. -/
structure InstagramPost where
  shortcode : String
  caption : Option String
  username : String
  full_name : Option String
  like_count : Option Int
  comment_count : Option Int
  view_count : Option Int
  taken_at : Option PyDatetime
  video_duration : Option Int
  video_url : Option String
  thumbnail_url : Option String
  audio_title : Option String := none
  audio_artist : Option String := none
  audio_id : Option String := none
  audio_url : Option String := none
  hashtags : List String := []
  mentions : List String := []
  owner_profile : Option InstagramProfile := none
deriving Repr, DecidableEq

/-- `ScrapedMedia` dataclass. -/
structure ScrapedMedia where
  post : InstagramPost
  comments : List InstagramComment
  video_path : Option String
  fetched_comment_count : Nat := 0
deriving Repr, DecidableEq

/-- One raw comment entry of the payload `comments` list, as built by
`parse_info_payload`. -/
def buildParsedComment (raw : Json) : InstagramComment :=
  { id := pyStr (pyOr (pyOr (raw.get "id") (raw.get "comment_id")) (.str "")),
    username := (pyOr (pyOr (raw.get "author") (raw.get "user"))
      (pyOr (raw.get "username") (.str ""))).asStrD,
    text := (pyOr (pyOr (raw.get "text") (raw.get "body")) (.str "")).asStrD,
    like_count := (_extract_int (pyOr (raw.get "like_count")
      (raw.get "likecount"))).getD 0,
    created_at := _parse_timestamp (pyOr (raw.get "timestamp")
      (raw.get "created_at")) }

/-- The parser's comment loop: append each raw entry, stopping as soon
as the built list (whose current size is `count` plus the new entry) has
reached `max_comments`; callers start with `count = 0`. -/
def parseCommentsLoop (max_comments count : Nat) : List Json →
    List InstagramComment
  | [] => []
  | raw :: rest =>
    let comment := buildParsedComment raw
    if count + 1 ≥ max_comments then [comment]
    else comment :: parseCommentsLoop max_comments (count + 1) rest

/-- `parse_info_payload` from `app/instagram/parser.py`; an
`Except.error` models raising `InstagramParsingError`. -/
def parse_info_payload (payload : Json) (include_comments : Bool)
    (max_comments : Nat) :
    Except String (InstagramPost × List InstagramComment) :=
  if ¬ payload.hasKey "id" then
    .error "Missing media identifier in yt-dlp payload"
  else
    let caption := (pyOr (payload.get "description")
      (payload.get "full_description")).asStrOpt
    let post : InstagramPost :=
      { shortcode := pyStr (payload.get "id"),
        caption := caption,
        username := (pyOr (pyOr (payload.get "uploader_id")
          (payload.get "uploader")) (.str "")).asStrD,
        full_name := (pyOr (payload.get "uploader")
          (payload.get "creator")).asStrOpt,
        like_count := _extract_int (payload.get "like_count"),
        comment_count := _extract_int (payload.get "comment_count"),
        view_count := _extract_view_count payload,
        taken_at := _parse_timestamp (pyOr (payload.get "timestamp")
          (payload.get "upload_date")),
        video_duration :=
          match payload.get "duration" with
          | .num n => some n
          | _ => none,
        video_url := _select_format_url payload,
        thumbnail_url := (payload.get "thumbnail").asStrOpt,
        hashtags := _collect_tags caption '#',
        mentions := _collect_tags caption '@' }
    let comments : List InstagramComment :=
      if include_comments then
        parseCommentsLoop max_comments 0
          (pyOr (payload.get "comments") (.arr [])).asArr
      else []
    .ok (post, comments)

theorem foldl_bestStep_mem (l : List Json) (acc : Option Json) (f : Json)
    (h : l.foldl bestStep acc = some f) : acc = some f ∨ f ∈ l := by
  induction l generalizing acc with
  | nil => exact Or.inl h
  | cons e rest ih =>
    rcases ih (bestStep acc e) h with hstep | hmem
    · cases acc with
      | none =>
        injection hstep with hstep
        exact Or.inr (by simp [hstep])
      | some b =>
        rw [bestStep] at hstep
        split at hstep
        · injection hstep with hstep
          exact Or.inr (by simp [hstep])
        · exact Or.inl hstep
    · exact Or.inr (List.mem_cons_of_mem _ hmem)

theorem foldl_bestStep_max (l : List Json) (acc : Option Json) (f : Json)
    (h : l.foldl bestStep acc = some f) :
    (∀ b, acc = some b → heightOf b ≤ heightOf f) ∧
    (∀ e ∈ l, heightOf e ≤ heightOf f) := by
  induction l generalizing acc with
  | nil =>
    refine ⟨fun b hb => ?_, by simp⟩
    rw [hb] at h
    injection h with h
    rw [h]
  | cons e rest ih =>
    obtain ⟨hacc, hrest⟩ := ih (bestStep acc e) h
    have hest : heightOf e ≤ heightOf f := by
      cases acc with
      | none => exact hacc e rfl
      | some b =>
        by_cases hgt : heightOf e > heightOf b
        · exact hacc e (by rw [bestStep, if_pos hgt])
        · exact le_trans (not_lt.mp hgt) (hacc b (by rw [bestStep, if_neg hgt]))
    refine ⟨fun b hb => ?_, ?_⟩
    · subst hb
      by_cases hgt : heightOf e > heightOf b
      · exact le_trans (le_of_lt hgt) hest
      · exact hacc b (by rw [bestStep, if_neg hgt])
    · intro x hx
      rcases List.mem_cons.mp hx with rfl | hx
      · exact hest
      · exact hrest x hx

theorem foldl_bestStep_isSome (l : List Json) (b : Json) :
    (l.foldl bestStep (some b)).isSome = true := by
  induction l generalizing b with
  | nil => rfl
  | cons e rest ih =>
    show (rest.foldl bestStep (bestStep (some b) e)).isSome = true
    rw [bestStep]
    split
    · exact ih e
    · exact ih b

theorem selectBestFormat_isSome (l : List Json) (hl : l ≠ []) :
    (selectBestFormat l).isSome = true := by
  cases l with
  | nil => exact absurd rfl hl
  | cons e rest =>
    show (rest.foldl bestStep (bestStep none e)).isSome = true
    exact foldl_bestStep_isSome rest e

theorem truthy_of_height_isNum (e : Json)
    (h : (e.get "height").isNum = true) : e.truthy = true := by
  cases e with
  | obj fields =>
    cases fields with
    | nil => simp [Json.get, Json.isNum] at h
    | cons f rest => simp [Json.truthy]
  | null => simp [Json.get, Json.isNum] at h
  | bool b => simp [Json.get, Json.isNum] at h
  | num n => simp [Json.get, Json.isNum] at h
  | str s => simp [Json.get, Json.isNum] at h
  | arr l => simp [Json.get, Json.isNum] at h

/-- C9 (amended): the video-URL selection returns the direct `url` field
when truthy; otherwise, when some format has a numeric height, the
`url`-or-`manifest_url` of a maximal-height usable format — with no
further fallback even when that entry has neither URL; otherwise the
first formats entry's `url`-or-`manifest_url` when that entry is truthy;
and the page URL only when the formats list is empty (or its first entry
is falsy). -/
theorem C9_video_url_selection (info : Json) :
    ((info.get "url").truthy = true →
      _select_format_url info = (info.get "url").asStrOpt) ∧
    ((info.get "url").truthy = false → usableFormats info ≠ [] →
      ∃ fmt ∈ usableFormats info,
        (∀ e ∈ usableFormats info, heightOf e ≤ heightOf fmt) ∧
        _select_format_url info =
          (pyOr (fmt.get "url") (fmt.get "manifest_url")).asStrOpt) ∧
    ((info.get "url").truthy = false → usableFormats info = [] →
      ∀ fb, (formatsOf info).head? = some fb →
        _select_format_url info =
          (if fb.truthy then
            (pyOr (fb.get "url") (fb.get "manifest_url")).asStrOpt
          else (info.get "webpage_url").asStrOpt)) ∧
    ((info.get "url").truthy = false → formatsOf info = [] →
      _select_format_url info = (info.get "webpage_url").asStrOpt) := by
  refine ⟨?_, ?_, ?_, ?_⟩
  · intro hu
    rw [_select_format_url, if_pos hu]
  · intro hu hne
    obtain ⟨fmt, hfmt⟩ := Option.isSome_iff_exists.mp
      (selectBestFormat_isSome _ hne)
    have hmem : fmt ∈ usableFormats info := by
      rcases foldl_bestStep_mem _ none fmt hfmt with hcontra | hmem
      · exact absurd hcontra (by simp)
      · exact hmem
    have hnum : (fmt.get "height").isNum = true :=
      (List.mem_filter.mp hmem).2
    have htr : fmt.truthy = true := truthy_of_height_isNum fmt hnum
    refine ⟨fmt, hmem, (foldl_bestStep_max _ none fmt hfmt).2, ?_⟩
    rw [_select_format_url, if_neg (by simp [hu])]
    simp only [hfmt, htr, if_pos]
  · intro hu hempty fb hfb
    rw [_select_format_url, if_neg (by simp [hu])]
    simp only [hempty, selectBestFormat, List.foldl_nil, hfb]
  · intro hu hempty
    have husable : usableFormats info = [] := by
      rw [usableFormats, hempty]
      rfl
    rw [_select_format_url, if_neg (by simp [hu])]
    simp only [husable, selectBestFormat, List.foldl_nil, hempty,
      List.head?_nil]

/-- Witness for C9 at concrete payloads: a truthy direct URL wins, and
the 720-height format's manifest URL beats the 100-height entry. -/
theorem C9_video_url_selection_witness :
    _select_format_url (Json.obj [("url", Json.str "U")]) = some "U" ∧
    _select_format_url (Json.obj [("formats", Json.arr
      [Json.obj [("height", Json.num 100), ("url", Json.str "A")],
       Json.obj [("height", Json.num 720), ("manifest_url", Json.str "B")]])]) =
      some "B" := by
  constructor
  · exact (C9_video_url_selection _).1 (by rfl)
  · rfl

/-- C9 counterexample: the direct URL is absent and the (unique)
maximal-height format has neither `url` nor `manifest_url`, yet the
selection returns no URL instead of the page URL `webpage_url`. -/
theorem C9_counterexample :
    _select_format_url (Json.obj [("formats",
        Json.arr [Json.obj [("height", Json.num 100)]]),
      ("webpage_url", Json.str "https://example.com/page")]) = none ∧
    (Json.obj [("formats",
        Json.arr [Json.obj [("height", Json.num 100)]]),
      ("webpage_url", Json.str "https://example.com/page")]).get
        "webpage_url" = Json.str "https://example.com/page" := by
  exact ⟨rfl, rfl⟩

/-! ## HTTP oracle

Network traffic is modeled as a script of pre-determined response
outcomes, consumed one per request. A response carries the optional
status code (`getattr(response, "status_code", None)`) and the decoded
body (`none` models a body that fails `json.loads`). -/

inductive HttpOutcome where
  | netFail : HttpOutcome
  | response (status : Option Nat) (body : Option Json) : HttpOutcome
deriving Repr

/-- Whether a JSON value is a Python `dict`. -/
def Json.isObj : Json → Bool
  | .obj _ => true
  | _ => false

/-- `value is None` test. -/
def Json.isNull : Json → Bool
  | .null => true
  | _ => false

/-- `status_code and status_code >= 400`. -/
def statusIsError (status : Option Nat) : Bool :=
  match status with
  | some s => decide (400 ≤ s)
  | none => false

/-- Models `_id_to_pk` from the external `yt_dlp` library: base64url
interpretation of the first eleven shortcode characters; characters
outside the base64url alphabet make the decode raise. -/
def base64UrlVal (c : Char) : Option Nat :=
  if 'A' ≤ c ∧ c ≤ 'Z' then some (c.toNat - 'A'.toNat)
  else if 'a' ≤ c ∧ c ≤ 'z' then some (c.toNat - 'a'.toNat + 26)
  else if '0' ≤ c ∧ c ≤ '9' then some (c.toNat - '0'.toNat + 52)
  else if c = '-' then some 62
  else if c = '_' then some 63
  else none

/-- See `base64UrlVal`; `none` models the raised decode error. -/
def idToPk (shortcode : String) : Option Nat :=
  let cs := shortcode.data.take 11
  if cs = [] then none
  else
    cs.foldl
      (fun acc c =>
        match acc, base64UrlVal c with
        | some n, some v => some (n * 64 + v)
        | _, _ => none)
      (some 0)

/-! ## Comment Enrichment Fetcher (`app/instagram/comment_fetcher.py`) -/

/-- `_build_comment` from `comment_fetcher.py`: entries lacking both
`id` and `pk` yield `none` (silently dropped). -/
def _build_comment (node : Json) : Option InstagramComment :=
  let identifier := pyOr (node.get "id") (node.get "pk")
  if ¬ identifier.truthy then none
  else
    let owner := pyOr (node.get "owner") (pyOr (node.get "user") (.obj []))
    let like_source := pyOr (pyOr
      ((pyOr (node.get "edge_liked_by") (.obj [])).get "count")
      (node.get "comment_like_count")) (node.get "like_count")
    let created_source := pyOr (pyOr (node.get "created_at")
      (node.get "created_at_utc")) (pyOr (node.get "created_at_timestamp")
      (node.get "created_time"))
    some
      { id := pyStr identifier,
        username := (pyOr (owner.get "username") (.str "")).asStrD,
        text := (pyOr (pyOr (node.get "text") (node.get "body"))
          (.str "")).asStrD,
        like_count := (_extract_int like_source).getD 0,
        created_at := _parse_timestamp created_source }

/-- `_locate_comment_container` from `comment_fetcher.py`. -/
def _locate_comment_container (payload : Json) : Option Json :=
  if (payload.get "edge_media_to_parent_comment").isObj then
    some (payload.get "edge_media_to_parent_comment")
  else if ((payload.get "data").get "shortcode_media").isObj &&
      (((payload.get "data").get "shortcode_media").get
        "edge_media_to_parent_comment").isObj then
    some (((payload.get "data").get "shortcode_media").get
      "edge_media_to_parent_comment")
  else if (payload.get "xdt_api__v1__media__comments").isObj then
    some (payload.get "xdt_api__v1__media__comments")
  else none

/-- The edge/entry unwrapping shared by both node sources: a dict entry
yields its `node` sub-dict when present, else itself. -/
def unwrapNode (entry : Json) : Option Json :=
  if entry.isObj then
    some (if (entry.get "node").isObj then entry.get "node" else entry)
  else none

/-- `_extract_comment_nodes` from `comment_fetcher.py`. -/
def _extract_comment_nodes (payload : Json) : List Json :=
  match _locate_comment_container payload with
  | some container =>
    (pyOr (container.get "edges") (.arr [])).asArr.filterMap unwrapNode
  | none =>
    match payload.get "comments" with
    | .arr entries => entries.filterMap unwrapNode
    | _ => []

/-- `_extract_pagination_state` from `comment_fetcher.py`:
`(mode, cursor, cursor_kind, has_more)`. -/
def _extract_pagination_state (payload : Json) (current_mode : String) :
    String × Option String × Option String × Bool :=
  let graphql : Option (String × Option String × Option String × Bool) :=
    match _locate_comment_container payload with
    | some container =>
      let page_info := container.get "page_info"
      if page_info.isObj then
        let next_cursor := page_info.get "end_cursor"
        let has_more := (page_info.get "has_next_page").truthy
        if next_cursor.truthy && has_more then
          some ("graphql", some (pyStr next_cursor), some "after", true)
        else none
      else none
    | none => none
  match graphql with
  | some st => st
  | none =>
    let next_max_id := payload.get "next_max_id"
    let next_min_id := payload.get "next_min_id"
    let has_more_comments := payload.get "has_more_comments"
    let has_more_headload := payload.get "has_more_headload_comments"
    if next_max_id.truthy then
      let hm := if has_more_comments.isNull then has_more_headload
        else has_more_comments
      ("api_v1", some (pyStr next_max_id), some "max_id",
        if hm.isNull then true else hm.truthy)
    else if next_min_id.truthy then
      let hm := if has_more_headload.isNull then has_more_comments
        else has_more_headload
      ("api_v1", some (pyStr next_min_id), some "min_id",
        if hm.isNull then true else hm.truthy)
    else (current_mode, none, none, false)

/-- `_fetch_page` from `comment_fetcher.py`, applied to the scripted
outcome of its single HTTP request: network failure, an error status
(`status_code and status_code >= 400`), and an undecodable body raise
`InstagramCommentFetchError` (modeled as `Except.error`). -/
def _fetch_page (outcome : HttpOutcome) : Except String Json :=
  match outcome with
  | .netFail => .error "Network error while fetching Instagram comments"
  | .response status body =>
    if statusIsError status then
      .error "Instagram responded with an error status while fetching comments"
    else
      match body with
      | some payload => .ok payload
      | none => .error "Invalid JSON while fetching Instagram comments"

/-- The `for node in self._extract_comment_nodes(...)` body: build each
comment, skip empty or already-seen ids, and break as soon as the
dedupe set reaches the limit. -/
def addComments (limit : Nat) : List Json → List InstagramComment →
    List String → List InstagramComment × List String
  | [], comments, dedupe => (comments, dedupe)
  | node :: rest, comments, dedupe =>
    match _build_comment node with
    | none => addComments limit rest comments dedupe
    | some comment =>
      if comment.id = "" ∨ comment.id ∈ dedupe then
        addComments limit rest comments dedupe
      else
        let comments2 := comments ++ [comment]
        let dedupe2 := comment.id :: dedupe
        if limit ≤ dedupe2.length then (comments2, dedupe2)
        else addComments limit rest comments2 dedupe2

/-- `_collect_comments` from `comment_fetcher.py`. The page script
stands in for the HTTP endpoint; an exhausted script models an empty
(falsy) JSON object response, on which the source breaks as well. -/
def _collect_comments (limit : Nat) (pages : List HttpOutcome)
    (comments : List InstagramComment) (dedupe : List String)
    (mode : String) : Except String (List InstagramComment) :=
  if dedupe.length + comments.length < limit then
    match pages with
    | [] => .ok comments
    | page :: restPages =>
      match _fetch_page page with
      | .error e => .error e
      | .ok payload =>
        if ¬ payload.truthy then .ok comments
        else
          let step := addComments limit (_extract_comment_nodes payload)
            comments dedupe
          let st := _extract_pagination_state payload mode
          if ¬ st.2.2.2 ∨ st.2.1 = none then .ok step.1
          else _collect_comments limit restPages step.1 step.2 st.1
  else .ok comments

/-- The `{str(cid) for cid in (existing_ids or []) if cid}` set; kept as
a duplicate-free list. -/
def insertUnique (s : List String) (x : String) : List String :=
  if x ∈ s then s else x :: s

/-- See `insertUnique`. -/
def dedupeSetOf (existing_ids : List String) : List String :=
  existing_ids.foldl (fun s i => if i ≠ "" then insertUnique s i else s) []

/-- `fetch_comments` from `comment_fetcher.py`. -/
def fetch_comments (shortcode : String) (limit : Int)
    (existing_ids : List String) (pages : List HttpOutcome) :
    Except String (List InstagramComment) :=
  if shortcode = "" ∨ limit ≤ 0 then .ok []
  else
    let dedupe := dedupeSetOf existing_ids
    if limit - (dedupe.length : Int) ≤ 0 then .ok []
    else
      match idToPk shortcode with
      | none =>
        .error ("Cannot derive media identifier from shortcode " ++ shortcode)
      | some _ => _collect_comments limit.toNat pages [] dedupe "api_v1"

theorem addComments_spec (limit : Nat) (nodes : List Json) :
    ∀ comments dedupe, ∃ new,
      (addComments limit nodes comments dedupe).1 = comments ++ new ∧
      (∀ c ∈ new, c.id ∉ dedupe) ∧
      (new.map InstagramComment.id).Nodup ∧
      (∀ c ∈ new, c.id ∈ (addComments limit nodes comments dedupe).2) ∧
      (∀ x ∈ dedupe, x ∈ (addComments limit nodes comments dedupe).2) ∧
      (addComments limit nodes comments dedupe).2.length + comments.length =
        dedupe.length + (addComments limit nodes comments dedupe).1.length := by
  induction nodes with
  | nil =>
    intro comments dedupe
    exact ⟨[], by simp [addComments], by simp, by simp, by simp,
      by simp [addComments], by simp [addComments]⟩
  | cons node rest ih =>
    intro comments dedupe
    show ∃ new, (addComments limit (node :: rest) comments dedupe).1 = _ ∧ _
    rw [addComments]
    cases hb : _build_comment node with
    | none => exact ih comments dedupe
    | some comment =>
      simp only []
      by_cases hskip : comment.id = "" ∨ comment.id ∈ dedupe
      · rw [if_pos hskip]
        exact ih comments dedupe
      · rw [if_neg hskip]
        push_neg at hskip
        obtain ⟨hne, hnotin⟩ := hskip
        by_cases hlim : limit ≤ (comment.id :: dedupe).length
        · rw [if_pos hlim]
          refine ⟨[comment], by simp, ?_, by simp, ?_, ?_, by simp; omega⟩
          · intro c hc
            rw [List.mem_singleton.mp hc]
            exact hnotin
          · intro c hc
            rw [List.mem_singleton.mp hc]
            simp
          · intro x hx
            simp [hx]
        · rw [if_neg hlim]
          obtain ⟨new2, h1, h2, h3, h4, h5, h6⟩ :=
            ih (comments ++ [comment]) (comment.id :: dedupe)
          refine ⟨comment :: new2, by simp [h1], ?_, ?_, ?_, ?_, by
            simp at h6 ⊢; omega⟩
          · intro c hc
            rcases List.mem_cons.mp hc with rfl | hc
            · exact hnotin
            · intro hmem
              exact h2 c hc (List.mem_cons_of_mem _ hmem)
          · refine List.Nodup.cons ?_ h3
            intro hmem
            obtain ⟨c, hc, hcid⟩ := List.mem_map.mp hmem
            exact h2 c hc (by rw [hcid]; simp)
          · intro c hc
            rcases List.mem_cons.mp hc with rfl | hc
            · exact h5 c.id (by simp)
            · exact h4 c hc
          · intro x hx
            exact h5 x (List.mem_cons_of_mem _ hx)

theorem addComments_bound (limit : Nat) (nodes : List Json) :
    ∀ comments dedupe, dedupe.length < limit →
      (addComments limit nodes comments dedupe).2.length ≤ limit := by
  induction nodes with
  | nil =>
    intro comments dedupe hd
    simpa [addComments] using le_of_lt hd
  | cons node rest ih =>
    intro comments dedupe hd
    rw [addComments]
    cases hb : _build_comment node with
    | none => exact ih comments dedupe hd
    | some comment =>
      simp only []
      by_cases hskip : comment.id = "" ∨ comment.id ∈ dedupe
      · rw [if_pos hskip]
        exact ih comments dedupe hd
      · rw [if_neg hskip]
        by_cases hlim : limit ≤ (comment.id :: dedupe).length
        · rw [if_pos hlim]
          simpa using hd
        · rw [if_neg hlim]
          exact ih _ _ (by simpa using Nat.lt_of_not_le hlim)

theorem collect_spec (limit : Nat) (pages : List HttpOutcome) :
    ∀ comments dedupe mode res,
      _collect_comments limit pages comments dedupe mode = .ok res →
      dedupe.length ≤ limit →
      ∃ new, res = comments ++ new ∧ (∀ c ∈ new, c.id ∉ dedupe) ∧
        (new.map InstagramComment.id).Nodup ∧
        new.length + dedupe.length ≤ limit := by
  induction pages with
  | nil =>
    intro comments dedupe mode res h hd
    rw [_collect_comments.eq_1] at h
    have hres : comments = res := by
      by_cases hw : dedupe.length + comments.length < limit
      · rw [if_pos hw] at h
        exact Except.ok.inj h
      · rw [if_neg hw] at h
        exact Except.ok.inj h
    subst hres
    exact ⟨[], by simp, by simp, by simp, by simpa using hd⟩
  | cons page rest ih =>
    intro comments dedupe mode res h hd
    rw [_collect_comments.eq_2] at h
    by_cases hw : dedupe.length + comments.length < limit
    · rw [if_pos hw] at h
      generalize hfp : _fetch_page page = fp at h
      cases fp with
      | error e => exact absurd h (by simp)
      | ok payload =>
        simp only [] at h
        by_cases htr : payload.truthy = true
        · rw [if_neg (by simp [htr])] at h
          obtain ⟨new1, ha1, ha2, ha3, ha4, ha5, ha6⟩ :=
            addComments_spec limit (_extract_comment_nodes payload)
              comments dedupe
          have hdlt : dedupe.length < limit := by omega
          have hbound := addComments_bound limit
            (_extract_comment_nodes payload) comments dedupe hdlt
          have hc2len : (addComments limit (_extract_comment_nodes payload)
              comments dedupe).1.length = comments.length + new1.length := by
            rw [ha1]
            simp
          by_cases hpag :
              ¬ (_extract_pagination_state payload mode).2.2.2 = true ∨
              (_extract_pagination_state payload mode).2.1 = none
          · rw [if_pos hpag] at h
            cases h
            exact ⟨new1, ha1, ha2, ha3, by omega⟩
          · rw [if_neg hpag] at h
            obtain ⟨new2, hb1, hb2, hb3, hb4⟩ := ih _ _ _ _ h hbound
            refine ⟨new1 ++ new2, ?_, ?_, ?_, ?_⟩
            · rw [hb1, ha1, List.append_assoc]
            · intro c hc
              rcases List.mem_append.mp hc with hc | hc
              · exact ha2 c hc
              · intro hmem
                exact hb2 c hc (ha5 _ hmem)
            · rw [List.map_append, List.nodup_append]
              refine ⟨ha3, hb3, ?_⟩
              intro x hx1 hx2
              obtain ⟨c1, hc1, rfl⟩ := List.mem_map.mp hx1
              obtain ⟨c2, hc2, he⟩ := List.mem_map.mp hx2
              exact hb2 c2 hc2 (he ▸ ha4 c1 hc1)
            · simp only [List.length_append]
              omega
        · rw [if_pos (by simpa using htr)] at h
          cases h
          exact ⟨[], by simp, by simp, by simp, by simpa using hd⟩
    · rw [if_neg hw] at h
      cases h
      exact ⟨[], by simp, by simp, by simp, by simpa using hd⟩

theorem collect_append (limit : Nat) (pages : List HttpOutcome) :
    ∀ extra comments dedupe mode res,
      _collect_comments limit pages comments dedupe mode = .ok res →
      limit + comments.length ≤ dedupe.length + res.length →
      _collect_comments limit (pages ++ extra) comments dedupe mode =
        .ok res := by
  induction pages with
  | nil =>
    intro extra comments dedupe mode res h hcnt
    rw [_collect_comments.eq_1] at h
    by_cases hw : dedupe.length + comments.length < limit
    · rw [if_pos hw] at h
      have hres : comments = res := Except.ok.inj h
      subst hres
      exfalso
      omega
    · rw [if_neg hw] at h
      have hres : comments = res := Except.ok.inj h
      subst hres
      rw [List.nil_append]
      cases extra with
      | nil => rw [_collect_comments.eq_1, if_neg hw]
      | cons e2 rest2 => rw [_collect_comments.eq_2, if_neg hw]
  | cons page rest ih =>
    intro extra comments dedupe mode res h hcnt
    rw [_collect_comments.eq_2] at h
    rw [List.cons_append, _collect_comments.eq_2]
    by_cases hw : dedupe.length + comments.length < limit
    · rw [if_pos hw] at h
      rw [if_pos hw]
      generalize hfp : _fetch_page page = fp at h ⊢
      cases fp with
      | error e => exact absurd h (by simp)
      | ok payload =>
        simp only [] at h ⊢
        by_cases htr : payload.truthy = true
        · rw [if_neg (by simp [htr])] at h
          rw [if_neg (by simp [htr])]
          by_cases hpag :
              ¬ (_extract_pagination_state payload mode).2.2.2 = true ∨
              (_extract_pagination_state payload mode).2.1 = none
          · rw [if_pos hpag] at h
            rw [if_pos hpag]
            exact h
          · rw [if_neg hpag] at h
            rw [if_neg hpag]
            obtain ⟨new1, ha1, ha2, ha3, ha4, ha5, ha6⟩ :=
              addComments_spec limit (_extract_comment_nodes payload)
                comments dedupe
            have hc2len : (addComments limit (_extract_comment_nodes payload)
                comments dedupe).1.length =
                comments.length + new1.length := by
              rw [ha1]
              simp
            refine ih extra _ _ _ _ h ?_
            omega
        · rw [if_pos (by simpa using htr)] at h
          rw [if_pos (by simpa using htr)]
          exact h
    · rw [if_neg hw] at h
      rw [if_neg hw]
      exact h

/-- C5: for a non-empty existing-id set not yet meeting a positive
limit, the fetched comments exclude every existing id and contain no
duplicate ids, the combined count never exceeds the limit, and once the
combined count has reached the limit, appending further available pages
(upstream still reporting more) leaves the result unchanged — the loop
has already stopped. -/
theorem C5_comment_fetch_dedupe_and_limit (shortcode : String)
    (limit : Int) (existing_ids : List String)
    (pages extra : List HttpOutcome) (res : List InstagramComment)
    (hsc : shortcode ≠ "") (hlim : 0 < limit)
    (hroom : (dedupeSetOf existing_ids).length < limit.toNat)
    (h : fetch_comments shortcode limit existing_ids pages = .ok res) :
    (∀ c ∈ res, c.id ∉ dedupeSetOf existing_ids) ∧
    (res.map InstagramComment.id).Nodup ∧
    res.length + (dedupeSetOf existing_ids).length ≤ limit.toNat ∧
    (limit.toNat ≤ (dedupeSetOf existing_ids).length + res.length →
      fetch_comments shortcode limit existing_ids (pages ++ extra) =
        .ok res) := by
  have hcond1 : ¬ (shortcode = "" ∨ limit ≤ 0) := by
    push_neg
    exact ⟨hsc, by omega⟩
  have hcond2 :
      ¬ (limit - ((dedupeSetOf existing_ids).length : Int) ≤ 0) := by
    omega
  rw [fetch_comments, if_neg hcond1] at h
  simp only [] at h
  rw [if_neg hcond2] at h
  generalize hpk : idToPk shortcode = pk at h
  cases pk with
  | none => exact absurd h (by simp)
  | some pkv =>
    obtain ⟨new, hr1, hr2, hr3, hr4⟩ := collect_spec limit.toNat pages []
      (dedupeSetOf existing_ids) "api_v1" res h (le_of_lt hroom)
    rw [List.nil_append] at hr1
    subst hr1
    refine ⟨hr2, hr3, by omega, ?_⟩
    intro hcnt
    rw [fetch_comments, if_neg hcond1]
    simp only []
    rw [if_neg hcond2, hpk]
    exact collect_append limit.toNat pages extra [] _ _ _ h (by simp; omega)

/-- Witness for C5 at the spec example shape: existing ids 1 and 2,
limit 3, one page offering ids 3 and 4 plus a further cursor; only id 3
is taken and a trailing extra page is never requested. -/
theorem C5_comment_fetch_dedupe_and_limit_witness :
    (∀ c ∈ [InstagramComment.mk "3" "" "" 0 none none],
      c.id ∉ dedupeSetOf ["1", "2"]) ∧
    ([InstagramComment.mk "3" "" "" 0 none none].map
      InstagramComment.id).Nodup ∧
    [InstagramComment.mk "3" "" "" 0 none none].length +
      (dedupeSetOf ["1", "2"]).length ≤ (3 : Int).toNat ∧
    ((3 : Int).toNat ≤ (dedupeSetOf ["1", "2"]).length +
        [InstagramComment.mk "3" "" "" 0 none none].length →
      fetch_comments "ABC" 3 ["1", "2"]
        ([HttpOutcome.response (some 200) (some (Json.obj
          [("comments", Json.arr [Json.obj [("id", Json.str "3")],
            Json.obj [("id", Json.str "4")]]),
           ("next_max_id", Json.str "CUR"),
           ("has_more_comments", Json.bool true)]))] ++
         [HttpOutcome.netFail]) =
        .ok [InstagramComment.mk "3" "" "" 0 none none]) :=
  C5_comment_fetch_dedupe_and_limit "ABC" 3 ["1", "2"]
    [HttpOutcome.response (some 200) (some (Json.obj
      [("comments", Json.arr [Json.obj [("id", Json.str "3")],
        Json.obj [("id", Json.str "4")]]),
       ("next_max_id", Json.str "CUR"),
       ("has_more_comments", Json.bool true)]))]
    [HttpOutcome.netFail]
    [InstagramComment.mk "3" "" "" 0 none none]
    (by decide) (by decide) (by decide) (by rfl)

/-- C8 (amended): a page response with HTTP status at least 400, or a
body that fails JSON decoding, raises the comment-fetch error, and the
error propagates out of `_collect_comments` and `fetch_comments` whole —
no comments collected on earlier pages are returned. Statuses below 400
(also 3xx, although non-2xx) do not raise. -/
theorem C8_page_error_aborts_fetch :
    (∀ (s : Nat) (body : Option Json), 400 ≤ s →
      _fetch_page (.response (some s) body) =
        .error
          "Instagram responded with an error status while fetching comments") ∧
    (∀ status : Option Nat, statusIsError status = false →
      _fetch_page (.response status none) =
        .error "Invalid JSON while fetching Instagram comments") ∧
    (∀ (limit : Nat) (page : HttpOutcome) (pages : List HttpOutcome)
      (comments : List InstagramComment) (dedupe : List String)
      (mode msg : String), _fetch_page page = .error msg →
      dedupe.length + comments.length < limit →
      _collect_comments limit (page :: pages) comments dedupe mode =
        .error msg) ∧
    (∀ (shortcode : String) (climit : Int) (existing_ids : List String)
      (pages2 : List HttpOutcome) (msg : String) (pk : Nat),
      shortcode ≠ "" → 0 < climit →
      (dedupeSetOf existing_ids).length < climit.toNat →
      idToPk shortcode = some pk →
      _collect_comments climit.toNat pages2 [] (dedupeSetOf existing_ids)
        "api_v1" = .error msg →
      fetch_comments shortcode climit existing_ids pages2 = .error msg) := by
  refine ⟨?_, ?_, ?_, ?_⟩
  · intro s body hs
    rw [_fetch_page.eq_def]
    simp only []
    rw [if_pos (by simp [statusIsError, hs])]
  · intro status hst
    rw [_fetch_page.eq_def]
    simp only []
    rw [if_neg (by simp [hst])]
  · intro limit page pages comments dedupe mode msg hfp hw
    rw [_collect_comments.eq_2, if_pos hw, hfp]
  · intro shortcode climit existing_ids pages2 msg pk hsc hlim hroom hpk hcol
    have hcond1 : ¬ (shortcode = "" ∨ climit ≤ 0) := by
      push_neg
      exact ⟨hsc, by omega⟩
    rw [fetch_comments, if_neg hcond1]
    simp only []
    rw [if_neg (by omega :
      ¬ (climit - ((dedupeSetOf existing_ids).length : Int) ≤ 0)), hpk]
    exact hcol

/-- Witness for C8: a 404 page and an undecodable body both error, and
the 404 on the first page aborts collection and the whole fetch. -/
theorem C8_page_error_aborts_fetch_witness :
    _fetch_page (.response (some 404) (some (Json.obj []))) =
      .error
        "Instagram responded with an error status while fetching comments" ∧
    _fetch_page (.response (some 200) none) =
      .error "Invalid JSON while fetching Instagram comments" ∧
    _collect_comments 5 [HttpOutcome.response (some 404)
        (some (Json.obj []))] [] ["1", "2"] "api_v1" =
      .error
        "Instagram responded with an error status while fetching comments" ∧
    fetch_comments "ABC" 5 ["2", "1"] [HttpOutcome.response (some 404)
        (some (Json.obj []))] =
      .error
        "Instagram responded with an error status while fetching comments" := by
  have H := C8_page_error_aborts_fetch
  refine ⟨H.1 404 (some (Json.obj [])) (by norm_num),
    H.2.1 (some 200) (by decide), ?_, ?_⟩
  · exact H.2.2.1 5 _ [] [] ["1", "2"] "api_v1" _
      (H.1 404 (some (Json.obj [])) (by norm_num)) (by decide)
  · exact H.2.2.2 "ABC" 5 ["2", "1"] _ _ 66 (by decide) (by decide)
      (by decide) (by rfl)
      (H.2.2.1 5 _ [] [] ["1", "2"] "api_v1" _
        (H.1 404 (some (Json.obj [])) (by norm_num)) (by decide))

/-- C8 counterexample: a 301 response — non-2xx — with a decodable body
does not raise; `_fetch_page` succeeds, because the source only treats
`status_code >= 400` as an error. -/
theorem C8_counterexample :
    _fetch_page (.response (some 301) (some (Json.obj [("k", Json.num 1)]))) =
      .ok (Json.obj [("k", Json.num 1)]) := by
  rfl

/-! ## Metrics/Owner Fetcher (`app/instagram/view_fetcher.py`) -/

/-- Audio attribution block assembled by `_extract_audio_info`. -/
structure AudioInfo where
  title : Option String
  artist : Option String
  audio_id : Option String
  audio_url : Option String
deriving Repr, DecidableEq

/-- Owner stub assembled by `_extract_owner_info`. -/
structure OwnerInfo where
  username : Option String
  full_name : Option String
  biography : Option String
  posts : Option Int
  followers : Option Int
  following : Option Int
  profile_pic_url : Option String
deriving Repr, DecidableEq

/-- The dictionary returned by `fetch_media_details`. -/
structure MediaDetails where
  view_count : Option Int
  comment_count : Option Int
  caption : Option String
  audio : Option AudioInfo
  owner : Option OwnerInfo
deriving Repr, DecidableEq

namespace ViewFetcher

/-- `items[0]` when `items` is a non-empty list and its head a dict. -/
def firstItem (payload : Json) : Option Json :=
  match payload.get "items" with
  | .arr (media :: _) => if media.isObj then some media else none
  | _ => none

/-- The numeric-or-digit-string reading shared by the extractors
(`int(value)` for numbers, digits filtered out of strings). -/
def numOrDigits (value : Json) : Option Int :=
  match value with
  | .num n => some n
  | .str s =>
    let digits := s.data.filter Char.isDigit
    if digits ≠ [] then some (digitsToNat digits) else none
  | _ => none

/-- `_safe_int` (static): numbers, or strings that are all digits. -/
def _safe_int (value : Json) : Option Int :=
  match value with
  | .num n => some n
  | .str s => if s ≠ "" ∧ s.data.all Char.isDigit then some (digitsToNat s.data) else none
  | _ => none

/-- `_extract_view_count` (static) of the view fetcher. -/
def _extract_view_count (payload : Json) : Option Int :=
  match firstItem payload with
  | none => none
  | some media =>
    (["view_count", "video_view_count", "play_count", "play_count_total",
      "view_count_pretty", "play_count_pretty"].foldl
      (fun acc key =>
        match acc with
        | some n => some n
        | none => numOrDigits (media.get key))
      none)

/-- `_extract_comment_count` (static). -/
def _extract_comment_count (payload : Json) : Option Int :=
  match firstItem payload with
  | none => none
  | some media =>
    numOrDigits (pyOr (media.get "comment_count") (media.get "commentCount"))

/-- `_extract_caption` (static): trimmed caption text, empty as absent. -/
def _extract_caption (payload : Json) : Option String :=
  match firstItem payload with
  | none => none
  | some media =>
    if (media.get "caption").isObj then
      match (media.get "caption").get "text" with
      | .str text =>
        if pyStrip text = "" then none else some (pyStrip text)
      | _ => none
    else none

/-- `_normalize_audio_url`: only HTTP(S)-scheme strings are kept. -/
def _normalize_audio_url (value : Json) : Option String :=
  match value with
  | .str s => if "http".data.isPrefixOf s.data then some s else none
  | _ => none

/-- `_extract_audio_info` (static): attached-music asset preferred,
original-sound fields otherwise; only populated when at least one field
is truthy. -/
def _extract_audio_info (payload : Json) : Option AudioInfo :=
  match firstItem payload with
  | none => none
  | some media =>
    let clips_metadata :=
      if (media.get "clips_metadata").isObj then media.get "clips_metadata"
      else .obj []
    let fromMusic : Option AudioInfo :=
      if (clips_metadata.get "music_info").isObj &&
          ((clips_metadata.get "music_info").get "music_asset_info").isObj then
        let music_asset := (clips_metadata.get "music_info").get
          "music_asset_info"
        let title := music_asset.get "title"
        let artist := music_asset.get "display_artist"
        let audio_id := pyOr (music_asset.get "id")
          (music_asset.get "audio_asset_id")
        let audio_url :=
          match _normalize_audio_url
              (music_asset.get "progressive_download_url") with
          | some u => some u
          | none => _normalize_audio_url (music_asset.get "dash_manifest")
        if title.truthy || artist.truthy || audio_id.truthy ||
            audio_url.isSome then
          some { title := title.asStrOpt, artist := artist.asStrOpt,
                 audio_id := (if audio_id.isNull then none
                   else some (pyStr audio_id)),
                 audio_url := audio_url }
        else none
      else none
    match fromMusic with
    | some info => some info
    | none =>
      if (clips_metadata.get "original_sound_info").isObj then
        let original_sound := clips_metadata.get "original_sound_info"
        let title := original_sound.get "original_audio_title"
        let artist := pyOr (original_sound.get "original_audio_artist")
          ((media.get "user").get "username")
        let audio_id := original_sound.get "audio_asset_id"
        let audio_url :=
          match _normalize_audio_url
              (original_sound.get "progressive_download_url") with
          | some u => some u
          | none => _normalize_audio_url (original_sound.get "dash_manifest")
        if title.truthy || artist.truthy || audio_id.truthy ||
            audio_url.isSome then
          some { title := title.asStrOpt, artist := artist.asStrOpt,
                 audio_id := (if audio_id.isNull then none
                   else some (pyStr audio_id)),
                 audio_url := audio_url }
        else none
      else none

/-- Truthiness of an optional integer in a Python `any([...])` test
(`0` and `None` are both falsy). -/
def optIntTruthy : Option Int → Bool
  | some n => n != 0
  | none => false

/-- `_extract_owner_info` (static). -/
def _extract_owner_info (payload : Json) : Option OwnerInfo :=
  match firstItem payload with
  | none => none
  | some media =>
    let user :=
      if (media.get "owner").isObj then some (media.get "owner")
      else if (media.get "user").isObj then some (media.get "user")
      else none
    match user with
    | none => none
    | some user =>
      let username := user.get "username"
      let full_name := user.get "full_name"
      let biography := user.get "biography"
      let profile_pic := pyOr (user.get "profile_pic_url_hd")
        (user.get "profile_pic_url")
      let posts := _safe_int (pyOr (user.get "media_count")
        (user.get "mediaCount"))
      let followers := _safe_int (pyOr (pyOr (user.get "follower_count")
        (user.get "followerCount"))
        ((pyOr (user.get "edge_followed_by") (.obj [])).get "count"))
      let following := _safe_int (pyOr (pyOr (user.get "following_count")
        (user.get "followingCount"))
        ((pyOr (user.get "edge_follow") (.obj [])).get "count"))
      if username.truthy || full_name.truthy || biography.truthy ||
          optIntTruthy posts || optIntTruthy followers ||
          optIntTruthy following || profile_pic.truthy then
        some { username := username.asStrOpt,
               full_name := full_name.asStrOpt,
               biography := biography.asStrOpt, posts := posts,
               followers := followers, following := following,
               profile_pic_url := profile_pic.asStrOpt }
      else none

/-- `_fetch_info_payload`: request construction, network, error-status
and decode failures raise `InstagramViewFetchError` (`Except.error`). -/
def _fetch_info_payload (shortcode : String) (outcome : HttpOutcome) :
    Except String Json :=
  if shortcode = "" then .error "Missing shortcode for media fetch"
  else
    match idToPk shortcode with
    | none =>
      .error ("Cannot derive media identifier from shortcode " ++ shortcode)
    | some _ =>
      match outcome with
      | .netFail => .error "Network error while fetching media info"
      | .response status body =>
        if statusIsError status then
          .error
            "Instagram responded with an error status while fetching media info"
        else
          match body with
          | some payload => .ok payload
          | none => .error "Invalid JSON while fetching media info"

/-- The field extraction of `fetch_media_details` on a decoded payload. -/
def mediaDetailsOf (payload : Json) : MediaDetails :=
  { view_count := _extract_view_count payload,
    comment_count := _extract_comment_count payload,
    caption := _extract_caption payload,
    audio := _extract_audio_info payload,
    owner := _extract_owner_info payload }

/-- `fetch_media_details` of `InstagramCrawleeViewFetcher`. -/
def fetch_media_details (shortcode : String) (outcome : HttpOutcome) :
    Except String MediaDetails :=
  match _fetch_info_payload shortcode outcome with
  | .error e => .error e
  | .ok payload => .ok (mediaDetailsOf payload)

end ViewFetcher

/-- C2 counterexample: a 404 info response makes `fetch_media_details`
raise `ViewFetchError` instead of returning an empty result. -/
theorem C2_counterexample :
    ViewFetcher.fetch_media_details "ABC"
        (.response (some 404) (some (Json.obj []))) =
      .error
        "Instagram responded with an error status while fetching media info" := by
  rfl

/-- C2 (amended): `fetch_media_details` raises `ViewFetchError` for an
empty shortcode, an underivable media identifier, a network failure, an
HTTP status of at least 400, and an undecodable body; every accepted
response (status below 400, decodable body) yields the extracted record
without raising, and when the payload carries no usable `items` entry
that record is fully empty. -/
theorem C2_view_fetch_error_conditions :
    (∀ o, ViewFetcher.fetch_media_details "" o =
      .error "Missing shortcode for media fetch") ∧
    (∀ (sc : String) (o : HttpOutcome), sc ≠ "" → idToPk sc = none →
      ViewFetcher.fetch_media_details sc o =
        .error ("Cannot derive media identifier from shortcode " ++ sc)) ∧
    (∀ (sc : String) (pk : Nat), sc ≠ "" → idToPk sc = some pk →
      ViewFetcher.fetch_media_details sc .netFail =
        .error "Network error while fetching media info") ∧
    (∀ (sc : String) (pk s : Nat) (body : Option Json), sc ≠ "" →
      idToPk sc = some pk → 400 ≤ s →
      ViewFetcher.fetch_media_details sc (.response (some s) body) =
        .error
          "Instagram responded with an error status while fetching media info") ∧
    (∀ (sc : String) (pk : Nat) (status : Option Nat), sc ≠ "" →
      idToPk sc = some pk → statusIsError status = false →
      ViewFetcher.fetch_media_details sc (.response status none) =
        .error "Invalid JSON while fetching media info") ∧
    (∀ (sc : String) (pk : Nat) (status : Option Nat) (payload : Json),
      sc ≠ "" → idToPk sc = some pk → statusIsError status = false →
      ViewFetcher.fetch_media_details sc (.response status (some payload)) =
        .ok (ViewFetcher.mediaDetailsOf payload)) ∧
    (∀ (sc : String) (pk : Nat) (status : Option Nat) (payload : Json),
      sc ≠ "" → idToPk sc = some pk → statusIsError status = false →
      ViewFetcher.firstItem payload = none →
      ViewFetcher.fetch_media_details sc (.response status (some payload)) =
        .ok ⟨none, none, none, none, none⟩) := by
  have hbase : ∀ (sc : String) (pk : Nat) (o : HttpOutcome), sc ≠ "" →
      idToPk sc = some pk →
      ViewFetcher.fetch_media_details sc o =
        (match o with
         | .netFail => .error "Network error while fetching media info"
         | .response status body =>
           if statusIsError status then
             .error
               "Instagram responded with an error status while fetching media info"
           else
             match body with
             | some payload => .ok (ViewFetcher.mediaDetailsOf payload)
             | none => .error "Invalid JSON while fetching media info") := by
    intro sc pk o hsc hpk
    rw [ViewFetcher.fetch_media_details, ViewFetcher._fetch_info_payload.eq_def,
      if_neg hsc, hpk]
    cases o with
    | netFail => rfl
    | response status body =>
      simp only []
      by_cases hst : statusIsError status = true
      · rw [if_pos hst]
        simp [hst]
      · rw [if_neg hst]
        simp only [Bool.not_eq_true] at hst
        rw [hst]
        cases body <;> rfl
  refine ⟨?_, ?_, ?_, ?_, ?_, ?_, ?_⟩
  · intro o
    rw [ViewFetcher.fetch_media_details, ViewFetcher._fetch_info_payload.eq_def,
      if_pos rfl]
  · intro sc o hsc hpk
    rw [ViewFetcher.fetch_media_details, ViewFetcher._fetch_info_payload.eq_def,
      if_neg hsc, hpk]
  · intro sc pk hsc hpk
    rw [hbase sc pk _ hsc hpk]
  · intro sc pk s body hsc hpk hs
    rw [hbase sc pk _ hsc hpk]
    simp [statusIsError, hs]
  · intro sc pk status hsc hpk hst
    rw [hbase sc pk _ hsc hpk]
    simp [hst]
  · intro sc pk status payload hsc hpk hst
    rw [hbase sc pk _ hsc hpk]
    simp [hst]
  · intro sc pk status payload hsc hpk hst hitems
    rw [hbase sc pk _ hsc hpk]
    simp only [hst, Bool.false_eq_true, if_false]
    rw [ViewFetcher.mediaDetailsOf, ViewFetcher._extract_view_count,
      ViewFetcher._extract_comment_count, ViewFetcher._extract_caption,
      ViewFetcher._extract_audio_info, ViewFetcher._extract_owner_info,
      hitems]

/-- Witness for C2 at concrete inputs: empty shortcode, network
failure, 404 status, undecodable body, and a clean empty payload. -/
theorem C2_view_fetch_error_conditions_witness :
    ViewFetcher.fetch_media_details "" (.response (some 200)
        (some (Json.obj []))) =
      .error "Missing shortcode for media fetch" ∧
    ViewFetcher.fetch_media_details "ABC" .netFail =
      .error "Network error while fetching media info" ∧
    ViewFetcher.fetch_media_details "ABC"
        (.response (some 404) (some (Json.obj []))) =
      .error
        "Instagram responded with an error status while fetching media info" ∧
    ViewFetcher.fetch_media_details "ABC" (.response (some 200) none) =
      .error "Invalid JSON while fetching media info" ∧
    ViewFetcher.fetch_media_details "ABC"
        (.response (some 200) (some (Json.obj []))) =
      .ok ⟨none, none, none, none, none⟩ := by
  have H := C2_view_fetch_error_conditions
  exact ⟨H.1 _, H.2.2.1 "ABC" 66 (by decide) (by rfl),
    H.2.2.2.1 "ABC" 66 404 (some (Json.obj [])) (by decide) (by rfl)
      (by norm_num),
    H.2.2.2.2.1 "ABC" 66 (some 200) (by decide) (by rfl) (by decide),
    H.2.2.2.2.2.2 "ABC" 66 (some 200) (Json.obj []) (by decide) (by rfl)
      (by decide) (by rfl)⟩

/-! ## Profile Resolver (`app/instagram/profile_fetcher.py`)

The resolver instance carries two caches and has issued some number of
external requests; the network is an oracle indexed by that request
count. A raised `InstagramProfileFetchError` is an `Except.error` and
carries no state, so claims about failing resolutions use oracles that
are constant in the request index. -/

structure ProfileFetcherState where
  profile_cache : List (String × Option InstagramProfile)
  id_cache : List (String × Option String)
  requests : Nat
deriving Repr, DecidableEq

/-- The fresh state built by `__init__`. -/
def initProfileState : ProfileFetcherState := ⟨[], [], 0⟩

namespace ProfileFetcher

/-- `_safe_int` (static) of the profile fetcher. -/
def _safe_int (value : Json) : Option Int :=
  match value with
  | .num n => some n
  | .str s =>
    if s ≠ "" ∧ s.data.all Char.isDigit then some (digitsToNat s.data)
    else none
  | _ => none

/-- The `for entry in users` scan of `_extract_user_id`. -/
def extractUserIdLoop (username : String) : List Json → Option String
  | [] => none
  | entry :: rest =>
    let user := if entry.isObj then entry.get "user" else .null
    if ¬ user.isObj then extractUserIdLoop username rest
    else
      let candidate := (pyOr (user.get "username") (.str "")).asStrD
      if pyLower candidate = pyLower username then
        let identifier := pyOr (pyOr (user.get "pk") (user.get "pk_id"))
          (user.get "id")
        if ¬ identifier.isNull then some (pyStr identifier)
        else extractUserIdLoop username rest
      else extractUserIdLoop username rest

/-- `_extract_user_id` of `InstagramProfileFetcher`. -/
def _extract_user_id (payload : Json) (username : String) : Option String :=
  match payload.get "users" with
  | .arr entries => extractUserIdLoop username entries
  | _ => none

/-- `_build_profile` of `InstagramProfileFetcher`. -/
def _build_profile (payload : Json) (fallback_username : String) :
    Option InstagramProfile :=
  if ¬ (payload.get "user").isObj then none
  else
    let user := payload.get "user"
    some
      { username := (pyOr (user.get "username")
          (.str fallback_username)).asStrD,
        full_name := (pyOr (user.get "full_name")
          (user.get "name")).asStrOpt,
        biography := (user.get "biography").asStrOpt,
        posts := _safe_int (user.get "media_count"),
        followers := _safe_int (user.get "follower_count"),
        following := _safe_int (user.get "following_count"),
        profile_pic_url := (pyOr (pyOr (user.get "profile_pic_url_hd")
          ((user.get "hd_profile_pic_url_info").get "url"))
          (user.get "profile_pic_url")).asStrOpt }

/-- `_resolve_user_id`: topsearch lookup with its own cache. An error
status caches the absent id; network or decode failures raise. -/
def _resolve_user_id (username : String) (st : ProfileFetcherState)
    (oracle : Nat → HttpOutcome) :
    Except String (Option String × ProfileFetcherState) :=
  let cache_key := pyLower username
  match st.id_cache.lookup cache_key with
  | some cached => .ok (cached, st)
  | none =>
    match oracle st.requests with
    | .netFail => .error "Network error while resolving username"
    | .response status body =>
      let st1 : ProfileFetcherState :=
        { st with requests := st.requests + 1 }
      if statusIsError status then
        .ok (none, { st1 with id_cache := (cache_key, none) :: st1.id_cache })
      else
        match body with
        | none => .error "Invalid JSON while resolving username"
        | some payload =>
          let user_id := _extract_user_id payload username
          .ok (user_id,
            { st1 with id_cache := (cache_key, user_id) :: st1.id_cache })

/-- `_fetch_user_payload`: a status of 400 or more yields an empty
payload (not an error); network or decode failures raise. -/
def _fetch_user_payload (st : ProfileFetcherState)
    (oracle : Nat → HttpOutcome) :
    Except String (Json × ProfileFetcherState) :=
  match oracle st.requests with
  | .netFail => .error "Network error while fetching profile info"
  | .response status body =>
    let st1 : ProfileFetcherState := { st with requests := st.requests + 1 }
    if statusIsError status then .ok (.obj [], st1)
    else
      match body with
      | none => .error "Invalid JSON while fetching profile info"
      | some payload => .ok (payload, st1)

/-- `fetch_profile` of `InstagramProfileFetcher` (the pacing sleep is a
no-op in the model). -/
def fetch_profile (username0 : String) (st : ProfileFetcherState)
    (oracle : Nat → HttpOutcome) :
    Except String (Option InstagramProfile × ProfileFetcherState) :=
  let username := pyStrip username0
  if username = "" then .ok (none, st)
  else
    let key := pyLower username
    match st.profile_cache.lookup key with
    | some cached => .ok (cached, st)
    | none =>
      match _resolve_user_id username st oracle with
      | .error e => .error e
      | .ok (none, st1) =>
        .ok (none,
          { st1 with profile_cache := (key, none) :: st1.profile_cache })
      | .ok (some _, st1) =>
        match _fetch_user_payload st1 oracle with
        | .error e => .error e
        | .ok (payload, st2) =>
          let profile := _build_profile payload username
          .ok (profile,
            { st2 with profile_cache := (key, profile) :: st2.profile_cache })

end ProfileFetcher

/-- C7: within one resolver instance, a first successful `fetch_profile`
call stores the result (present or explicitly absent) under the
lowercased username, and a second call with any case variant returns the
cached value with the state — including the external-request count —
unchanged: no further external lookup happens. -/
theorem C7_profile_cache_second_call_free (oracle : Nat → HttpOutcome)
    (u v : String) (p : Option InstagramProfile)
    (s1 : ProfileFetcherState)
    (hu : pyStrip u ≠ "") (hvne : pyStrip v ≠ "")
    (hv : pyLower (pyStrip v) = pyLower (pyStrip u))
    (h : ProfileFetcher.fetch_profile u initProfileState oracle =
      .ok (p, s1)) :
    ProfileFetcher.fetch_profile v s1 oracle = .ok (p, s1) ∧
    (ProfileFetcher.fetch_profile v s1 oracle).map
      (fun r => r.2.requests) = .ok s1.requests := by
  have hcache : s1.profile_cache.lookup (pyLower (pyStrip u)) = some p := by
    rw [ProfileFetcher.fetch_profile] at h
    simp only [] at h
    rw [if_neg hu] at h
    have hl : (initProfileState.profile_cache).lookup (pyLower (pyStrip u)) =
        none := rfl
    rw [hl] at h
    generalize hres : ProfileFetcher._resolve_user_id (pyStrip u)
      initProfileState oracle = res at h
    cases res with
    | error e => exact absurd h (by simp)
    | ok pr =>
      obtain ⟨uid, st1⟩ := pr
      cases uid with
      | none =>
        simp only [] at h
        injection h with h
        injection h with h1 h2
        rw [← h2, ← h1]
        simp [List.lookup]
      | some uidv =>
        simp only [] at h
        generalize hfu : ProfileFetcher._fetch_user_payload st1 oracle =
          fu at h
        cases fu with
        | error e => exact absurd h (by simp)
        | ok pay =>
          obtain ⟨payload, st2⟩ := pay
          simp only [] at h
          injection h with h
          injection h with h1 h2
          rw [← h2, ← h1]
          simp [List.lookup]
  have hsecond : ProfileFetcher.fetch_profile v s1 oracle = .ok (p, s1) := by
    rw [ProfileFetcher.fetch_profile]
    simp only []
    rw [if_neg hvne, hv, hcache]
  exact ⟨hsecond, by rw [hsecond]; rfl⟩

/-- Two-request script for the C7 witness: one topsearch response
resolving `bob` to id 7 and one user-info response; any further request
fails, so reaching it would make the theorem's conclusion false. -/
def c7Oracle : Nat → HttpOutcome := fun n =>
  if n = 0 then
    .response (some 200) (some (Json.obj [("users", Json.arr
      [Json.obj [("user", Json.obj [("username", Json.str "bob"),
        ("pk", Json.num 7)])]])]))
  else if n = 1 then
    .response (some 200) (some (Json.obj [("user", Json.obj
      [("username", Json.str "bob"), ("full_name", Json.str "Bob B")])]))
  else .netFail

/-- The resolver state after the first C7 witness call. -/
def c7State : ProfileFetcherState :=
  { profile_cache := [("bob", some { username := "bob",
                                     full_name := some "Bob B",
                                     biography := none, posts := none,
                                     followers := none, following := none,
                                     profile_pic_url := none })],
    id_cache := [("bob", some "7")],
    requests := 2 }

/-- Witness for C7: resolving `Bob` then `BOB` — the second call returns
the cached profile and issues no further request (the oracle would fail
it). -/
theorem C7_profile_cache_second_call_free_witness :
    ProfileFetcher.fetch_profile "BOB" c7State c7Oracle =
      .ok (some { username := "bob", full_name := some "Bob B",
                  biography := none, posts := none, followers := none,
                  following := none, profile_pic_url := none }, c7State) ∧
    (ProfileFetcher.fetch_profile "BOB" c7State c7Oracle).map
      (fun r => r.2.requests) = .ok c7State.requests :=
  C7_profile_cache_second_call_free c7Oracle "Bob" "BOB"
    (some { username := "bob", full_name := some "Bob B",
            biography := none, posts := none, followers := none,
            following := none, profile_pic_url := none })
    c7State (by decide) (by decide) (by decide) (by rfl)

/-! ## Scraper Orchestrator (`app/services/instagram_scraper.py`)

`scrape` is factored into stage functions matching the method's
contiguous blocks; each stage receives the scripted network outcomes it
would consume. -/

/-- The configuration fields the orchestrator reads. -/
structure Settings where
  include_comments : Bool
  max_comments : Nat
  media_directory : String
deriving Repr, DecidableEq

/-- Which optional collaborators were injected in `__init__`. -/
structure ScrapeDeps where
  hasCommentFetcher : Bool
  hasViewFetcher : Bool
  hasProfileFetcher : Bool
deriving Repr, DecidableEq

/-- Scripted outcomes of the external calls one scrape performs. -/
structure ScrapeEnv where
  infoResult : Except String Json
  commentPages : List HttpOutcome
  viewOutcome : HttpOutcome
  profileOracle : Nat → HttpOutcome
  downloadOk : Bool

/-- The terminal error kinds a scrape surfaces to its caller. -/
inductive ScrapeError where
  | invalidUrl (msg : String) : ScrapeError
  | requestError (msg : String) : ScrapeError
  | parsingError (msg : String) : ScrapeError
  | mediaDownloadError (msg : String) : ScrapeError
deriving Repr, DecidableEq

/-- `MediaStorage.build_video_path` from `app/instagram/storage.py`. -/
def build_video_path (media_directory shortcode : String) : String :=
  media_directory ++ "/instagram/" ++ shortcode ++ ".mp4"

/-- Lines 69-91 of `scrape`: the comment-enrichment attempt; a raised
`InstagramCommentFetchError` is logged and the parsed comments kept. -/
def commentStage (settings : Settings) (hasCommentFetcher : Bool)
    (pages : List HttpOutcome) (post : InstagramPost)
    (comments : List InstagramComment) : List InstagramComment :=
  if settings.include_comments && hasCommentFetcher &&
      decide (comments.length < settings.max_comments) then
    match fetch_comments post.shortcode (settings.max_comments : Int)
        (comments.filterMap (fun c => if c.id ≠ "" then some c.id else none))
        pages with
    | .error _ => comments
    | .ok extra => comments ++ extra
  else comments

/-- Lines 92-97 of `scrape`: cap the combined list and raise
`comment_count` to at least its length. -/
def truncateStage (settings : Settings) (post : InstagramPost)
    (comments : List InstagramComment) :
    InstagramPost × List InstagramComment :=
  let comments2 :=
    if settings.include_comments &&
        decide (settings.max_comments < comments.length) then
      comments.take settings.max_comments
    else comments
  let count2 : Option Int :=
    some (max (post.comment_count.getD 0) (comments2.length : Int))
  let post2 :=
    if settings.include_comments then { post with comment_count := count2 }
    else post
  (post2, comments2)

/-- Lines 109-146 of `scrape`: merge a successful metrics result into
the post and derive the owner stub. -/
def applyMediaDetails (post : InstagramPost) (details : MediaDetails) :
    InstagramPost × Option OwnerInfo :=
  let p1 :=
    match details.view_count with
    | some v => { post with view_count := some v }
    | none => post
  let p2 :=
    match details.comment_count with
    | some total =>
      { p1 with comment_count := some (max (p1.comment_count.getD 0) total) }
    | none => p1
  let p3 :=
    if (details.caption.getD "") ≠ "" then { p2 with caption := details.caption }
    else p2
  let p4 := { p3 with
    audio_title := (match details.audio with
      | some a => a.title
      | none => none),
    audio_artist := (match details.audio with
      | some a => a.artist
      | none => none),
    audio_id := (match details.audio with
      | some a => a.audio_id
      | none => none),
    audio_url := (match details.audio with
      | some a => a.audio_url
      | none => none) }
  match details.owner with
  | none => (p4, none)
  | some ow =>
    let p5 :=
      if (ow.username.getD "") ≠ "" then
        { p4 with username := ow.username.getD "" }
      else p4
    let p6 :=
      if (ow.full_name.getD "") ≠ "" then { p5 with full_name := ow.full_name }
      else p5
    let stubProfile : InstagramProfile :=
      { username := (if (ow.username.getD "") ≠ "" then ow.username.getD ""
          else p6.username),
        full_name := (if (ow.full_name.getD "") ≠ "" then ow.full_name
          else p6.full_name),
        biography := ow.biography, posts := ow.posts,
        followers := ow.followers, following := ow.following,
        profile_pic_url := ow.profile_pic_url }
    let p7 := { p6 with owner_profile := some stubProfile }
    (p7, some ow)

/-- Lines 99-146 of `scrape`: run the Metrics Fetcher when configured; a
raised `InstagramViewFetchError` is logged and the post left as-is. -/
def viewStage (hasViewFetcher : Bool) (outcome : HttpOutcome)
    (post : InstagramPost) : InstagramPost × Option OwnerInfo :=
  if hasViewFetcher then
    match ViewFetcher.fetch_media_details post.shortcode outcome with
    | .error _ => (post, none)
    | .ok details => applyMediaDetails post details
  else (post, none)

/-- Lines 157-170 of `scrape`: distinct (case-insensitive) commenter
usernames in first-seen order, up to the limit. -/
def commentUsernamesLoop (limitN : Nat) (seen acc : List String) :
    List InstagramComment → List String
  | [] => acc.reverse
  | comment :: rest =>
    if limitN ≤ acc.length then acc.reverse
    else
      let username := pyStrip comment.username
      if username = "" then commentUsernamesLoop limitN seen acc rest
      else
        let key := pyLower username
        if key ∈ seen then commentUsernamesLoop limitN seen acc rest
        else commentUsernamesLoop limitN (key :: seen) (username :: acc) rest

/-- Lines 172-186 of `scrape`: resolve each collected username,
skipping cache-hit keys; a raised `InstagramProfileFetchError` is logged
and that username skipped. -/
def resolveProfilesLoop (oracle : Nat → HttpOutcome) :
    List String → List (String × InstagramProfile) → ProfileFetcherState →
    List (String × InstagramProfile) × ProfileFetcherState
  | [], lookupAcc, st => (lookupAcc, st)
  | username :: rest, lookupAcc, st =>
    if (lookupAcc.lookup (pyLower username)).isSome then
      resolveProfilesLoop oracle rest lookupAcc st
    else
      match ProfileFetcher.fetch_profile username st oracle with
      | .error _ => resolveProfilesLoop oracle rest lookupAcc st
      | .ok (none, st2) => resolveProfilesLoop oracle rest lookupAcc st2
      | .ok (some profile, st2) =>
        resolveProfilesLoop oracle rest
          ((pyLower username, profile) :: lookupAcc) st2

/-- Lines 188-191 of `scrape`: attach resolved profiles onto matching
comments. -/
def attachProfiles (lookupAcc : List (String × InstagramProfile))
    (comments : List InstagramComment) : List InstagramComment :=
  comments.map (fun c =>
    match lookupAcc.lookup (pyLower c.username) with
    | some p => { c with profile := some p }
    | none => c)

/-- Lines 149-155 and 193-209 of `scrape`: determine the owner username
and resolve its profile (failures logged, never aborting). -/
def ownerStage (oracle : Nat → HttpOutcome) (post : InstagramPost)
    (owner_stub : Option OwnerInfo)
    (lookupAcc : List (String × InstagramProfile))
    (st : ProfileFetcherState) : InstagramPost :=
  let earlier : Option String :=
    match owner_stub with
    | some ow =>
      if (ow.username.getD "") ≠ "" then ow.username
      else if post.username ≠ "" then some post.username else none
    | none => if post.username ≠ "" then some post.username else none
  let owner_username : Option String :=
    match post.owner_profile with
    | some op => if op.username ≠ "" then some op.username else earlier
    | none => earlier
  match owner_username with
  | none => post
  | some ou =>
    match lookupAcc.lookup (pyLower ou) with
    | some op => { post with owner_profile := some op }
    | none =>
      match ProfileFetcher.fetch_profile ou st oracle with
      | .error _ => post
      | .ok (none, _) => post
      | .ok (some op, _) => { post with owner_profile := some op }

/-- Lines 147-209 of `scrape`: the whole profile-resolution stage. -/
def profileStage (hasProfileFetcher : Bool) (oracle : Nat → HttpOutcome)
    (settings : Settings) (post : InstagramPost)
    (owner_stub : Option OwnerInfo) (comments : List InstagramComment) :
    InstagramPost × List InstagramComment :=
  if hasProfileFetcher then
    let limitN := min comments.length (min settings.max_comments 30)
    let comment_usernames := commentUsernamesLoop limitN [] [] comments
    let rp := resolveProfilesLoop oracle comment_usernames [] initProfileState
    let comments2 := attachProfiles rp.1 comments
    let post2 := ownerStage oracle post owner_stub rp.1 rp.2
    (post2, comments2)
  else (post, comments)

/-- `InstagramScraperService.scrape`. Terminal failures surface as
`ScrapeError`; enrichment-stage exceptions are absorbed inside the
stage functions. -/
def scrape (settings : Settings) (deps : ScrapeDeps) (env : ScrapeEnv)
    (url : String) (download_video : Bool) :
    Except ScrapeError ScrapedMedia :=
  match parse_instagram_url url with
  | .error e => .error (.invalidUrl e)
  | .ok _parsed_url =>
    match env.infoResult with
    | .error e => .error (.requestError e)
    | .ok payload =>
      match parse_info_payload payload settings.include_comments
          settings.max_comments with
      | .error e => .error (.parsingError e)
      | .ok (post, comments) =>
        if post.video_url.getD "" = "" then
          .error (.parsingError
            "The provided URL does not contain a downloadable video")
        else
          let comments1 := commentStage settings deps.hasCommentFetcher
            env.commentPages post comments
          let tc := truncateStage settings post comments1
          let vs := viewStage deps.hasViewFetcher env.viewOutcome tc.1
          let ps := profileStage deps.hasProfileFetcher env.profileOracle
            settings vs.1 vs.2 tc.2
          if download_video ∧ ¬ env.downloadOk then
            .error (.mediaDownloadError "Failed to download Instagram video")
          else
            let video_path :=
              if download_video then
                some (build_video_path settings.media_directory
                  ps.1.shortcode)
              else none
            let normalized :=
              if settings.include_comments then ps.2 else []
            .ok ⟨ps.1, normalized, video_path, normalized.length⟩

theorem truncateStage_cc (settings : Settings) (p : InstagramPost)
    (c : List InstagramComment) :
    p.comment_count.getD 0 ≤ (truncateStage settings p c).1.comment_count.getD 0 ∧
    (p.comment_count.isSome →
      (truncateStage settings p c).1.comment_count.isSome) := by
  rw [truncateStage]
  simp only []
  by_cases hi : settings.include_comments = true
  · rw [if_pos hi]
    constructor
    · simp [le_max_left]
    · intro
      simp
  · rw [if_neg hi]
    exact ⟨le_refl _, fun hs => hs⟩

theorem applyMediaDetails_cc_eq (p : InstagramPost) (d : MediaDetails) :
    (applyMediaDetails p d).1.comment_count =
      (match d.comment_count with
       | some t => some (max (p.comment_count.getD 0) t)
       | none => p.comment_count) := by
  obtain ⟨vc, cc, cap, au, ow⟩ := d
  rw [applyMediaDetails]
  simp only []
  cases ow <;> cases cc <;> cases vc <;> simp only [] <;> split_ifs <;> rfl

theorem applyMediaDetails_cc (p : InstagramPost) (d : MediaDetails) :
    p.comment_count.getD 0 ≤
      (applyMediaDetails p d).1.comment_count.getD 0 ∧
    (p.comment_count.isSome →
      (applyMediaDetails p d).1.comment_count.isSome) := by
  rw [applyMediaDetails_cc_eq]
  cases hcc : d.comment_count <;> simp [le_max_left]

theorem viewStage_cc (hv : Bool) (o : HttpOutcome) (p : InstagramPost) :
    p.comment_count.getD 0 ≤ (viewStage hv o p).1.comment_count.getD 0 ∧
    (p.comment_count.isSome → (viewStage hv o p).1.comment_count.isSome) := by
  rw [viewStage]
  cases hv with
  | false => exact ⟨le_refl _, fun hs => hs⟩
  | true =>
    simp only [if_pos]
    cases hfd : ViewFetcher.fetch_media_details p.shortcode o with
    | error e => exact ⟨le_refl _, fun hs => hs⟩
    | ok details => exact applyMediaDetails_cc p details

theorem ownerStage_shape (oracle : Nat → HttpOutcome) (p : InstagramPost)
    (ow : Option OwnerInfo) (l : List (String × InstagramProfile))
    (st : ProfileFetcherState) :
    ownerStage oracle p ow l st = p ∨
    ∃ op, ownerStage oracle p ow l st =
      { p with owner_profile := some op } := by
  rw [ownerStage.eq_def]
  simp only []
  split
  · exact Or.inl rfl
  · split
    · exact Or.inr ⟨_, rfl⟩
    · split
      · exact Or.inl rfl
      · exact Or.inl rfl
      · exact Or.inr ⟨_, rfl⟩

theorem profileStage_post_shape (hp : Bool) (oracle : Nat → HttpOutcome)
    (settings : Settings) (p : InstagramPost) (ow : Option OwnerInfo)
    (c : List InstagramComment) :
    (profileStage hp oracle settings p ow c).1 = p ∨
    ∃ op, (profileStage hp oracle settings p ow c).1 =
      { p with owner_profile := some op } := by
  rw [profileStage]
  cases hp with
  | false => exact Or.inl rfl
  | true =>
    simp only [if_pos]
    exact ownerStage_shape oracle p ow _ _

theorem profileStage_cc (hp : Bool) (oracle : Nat → HttpOutcome)
    (settings : Settings) (p : InstagramPost) (ow : Option OwnerInfo)
    (c : List InstagramComment) :
    (profileStage hp oracle settings p ow c).1.comment_count =
      p.comment_count := by
  rcases profileStage_post_shape hp oracle settings p ow c with hs | ⟨op, hs⟩ <;>
    rw [hs]

/-- C3: for every scrape that returns a result, the final
`comment_count` is at least the count the Payload Parser produced (an
absent parsed count reading as 0), and a present parsed count never
becomes absent. -/
theorem C3_comment_count_monotone (settings : Settings)
    (deps : ScrapeDeps) (env : ScrapeEnv) (url : String)
    (download_video : Bool) (payload : Json) (post0 : InstagramPost)
    (comments0 : List InstagramComment) (res : ScrapedMedia)
    (hinfo : env.infoResult = .ok payload)
    (hparse : parse_info_payload payload settings.include_comments
      settings.max_comments = .ok (post0, comments0))
    (h : scrape settings deps env url download_video = .ok res) :
    post0.comment_count.getD 0 ≤ res.post.comment_count.getD 0 ∧
    (post0.comment_count.isSome → res.post.comment_count.isSome) := by
  rw [scrape] at h
  generalize hpu : parse_instagram_url url = pu at h
  cases pu with
  | error e => exact absurd h (by simp)
  | ok parsed =>
    simp only [] at h
    rw [hinfo] at h
    simp only [] at h
    rw [hparse] at h
    simp only [] at h
    by_cases hvurl : post0.video_url.getD "" = ""
    · rw [if_pos hvurl] at h
      exact absurd h (by simp)
    · rw [if_neg hvurl] at h
      by_cases hdl : download_video = true ∧ ¬ env.downloadOk = true
      · rw [if_pos hdl] at h
        exact absurd h (by simp)
      · rw [if_neg hdl] at h
        have hres : res.post = (profileStage deps.hasProfileFetcher
            env.profileOracle settings
            (viewStage deps.hasViewFetcher env.viewOutcome
              (truncateStage settings post0 (commentStage settings
                deps.hasCommentFetcher env.commentPages post0
                comments0)).1).1
            (viewStage deps.hasViewFetcher env.viewOutcome
              (truncateStage settings post0 (commentStage settings
                deps.hasCommentFetcher env.commentPages post0
                comments0)).1).2
            (truncateStage settings post0 (commentStage settings
              deps.hasCommentFetcher env.commentPages post0
              comments0)).2).1 := by
          injection h with h
          rw [← h]
        obtain ⟨h1, h2⟩ := truncateStage_cc settings post0 (commentStage
          settings deps.hasCommentFetcher env.commentPages post0 comments0)
        obtain ⟨h3, h4⟩ := viewStage_cc deps.hasViewFetcher env.viewOutcome
          (truncateStage settings post0 (commentStage settings
            deps.hasCommentFetcher env.commentPages post0 comments0)).1
        rw [hres, profileStage_cc]
        exact ⟨le_trans h1 h3, fun hs => h4 (h2 hs)⟩

theorem truncateStage_frame (settings : Settings) (p : InstagramPost)
    (c : List InstagramComment) :
    (truncateStage settings p c).1.caption = p.caption ∧
    (truncateStage settings p c).1.hashtags = p.hashtags ∧
    (truncateStage settings p c).1.mentions = p.mentions ∧
    (truncateStage settings p c).1.like_count = p.like_count ∧
    (truncateStage settings p c).1.taken_at = p.taken_at ∧
    (truncateStage settings p c).1.video_duration = p.video_duration ∧
    (truncateStage settings p c).1.video_url = p.video_url ∧
    (truncateStage settings p c).1.thumbnail_url = p.thumbnail_url ∧
    (truncateStage settings p c).1.shortcode = p.shortcode := by
  rw [truncateStage]
  simp only []
  split_ifs <;>
    exact ⟨rfl, rfl, rfl, rfl, rfl, rfl, rfl, rfl, rfl⟩

theorem viewStage_error_frame (hv : Bool) (o : HttpOutcome)
    (p : InstagramPost) (msg : String)
    (hfail : ViewFetcher.fetch_media_details p.shortcode o = .error msg) :
    viewStage hv o p = (p, none) := by
  rw [viewStage]
  cases hv with
  | false => rfl
  | true =>
    simp only [if_pos]
    rw [hfail]

theorem profileStage_frame (hp : Bool) (oracle : Nat → HttpOutcome)
    (settings : Settings) (p : InstagramPost) (ow : Option OwnerInfo)
    (c : List InstagramComment) :
    (profileStage hp oracle settings p ow c).1.caption = p.caption ∧
    (profileStage hp oracle settings p ow c).1.hashtags = p.hashtags ∧
    (profileStage hp oracle settings p ow c).1.mentions = p.mentions ∧
    (profileStage hp oracle settings p ow c).1.like_count = p.like_count ∧
    (profileStage hp oracle settings p ow c).1.taken_at = p.taken_at ∧
    (profileStage hp oracle settings p ow c).1.video_duration =
      p.video_duration ∧
    (profileStage hp oracle settings p ow c).1.video_url = p.video_url ∧
    (profileStage hp oracle settings p ow c).1.thumbnail_url =
      p.thumbnail_url := by
  rcases profileStage_post_shape hp oracle settings p ow c with hs | ⟨op, hs⟩ <;>
    rw [hs] <;>
    exact ⟨rfl, rfl, rfl, rfl, rfl, rfl, rfl, rfl⟩

/-- C6: when the Metrics/Owner Fetcher raises, every Post field the
metrics stage would not have written — caption, hashtags, mentions,
like_count, taken_at, video_duration, video_url, thumbnail_url — is
identical in the final result to its value right after the Payload
Parser ran. -/
theorem C6_view_failure_frame (settings : Settings) (deps : ScrapeDeps)
    (env : ScrapeEnv) (url : String) (download_video : Bool)
    (payload : Json) (post0 : InstagramPost)
    (comments0 : List InstagramComment) (res : ScrapedMedia) (msg : String)
    (hinfo : env.infoResult = .ok payload)
    (hparse : parse_info_payload payload settings.include_comments
      settings.max_comments = .ok (post0, comments0))
    (hfail : ViewFetcher.fetch_media_details post0.shortcode
      env.viewOutcome = .error msg)
    (h : scrape settings deps env url download_video = .ok res) :
    res.post.caption = post0.caption ∧
    res.post.hashtags = post0.hashtags ∧
    res.post.mentions = post0.mentions ∧
    res.post.like_count = post0.like_count ∧
    res.post.taken_at = post0.taken_at ∧
    res.post.video_duration = post0.video_duration ∧
    res.post.video_url = post0.video_url ∧
    res.post.thumbnail_url = post0.thumbnail_url := by
  rw [scrape] at h
  generalize hpu : parse_instagram_url url = pu at h
  cases pu with
  | error e => exact absurd h (by simp)
  | ok parsed =>
    simp only [] at h
    rw [hinfo] at h
    simp only [] at h
    rw [hparse] at h
    simp only [] at h
    by_cases hvurl : post0.video_url.getD "" = ""
    · rw [if_pos hvurl] at h
      exact absurd h (by simp)
    · rw [if_neg hvurl] at h
      by_cases hdl : download_video = true ∧ ¬ env.downloadOk = true
      · rw [if_pos hdl] at h
        exact absurd h (by simp)
      · rw [if_neg hdl] at h
        have hres : res.post = (profileStage deps.hasProfileFetcher
            env.profileOracle settings
            (viewStage deps.hasViewFetcher env.viewOutcome
              (truncateStage settings post0 (commentStage settings
                deps.hasCommentFetcher env.commentPages post0
                comments0)).1).1
            (viewStage deps.hasViewFetcher env.viewOutcome
              (truncateStage settings post0 (commentStage settings
                deps.hasCommentFetcher env.commentPages post0
                comments0)).1).2
            (truncateStage settings post0 (commentStage settings
              deps.hasCommentFetcher env.commentPages post0
              comments0)).2).1 := by
          injection h with h
          rw [← h]
        obtain ⟨t1, t2, t3, t4, t5, t6, t7, t8, t9⟩ := truncateStage_frame
          settings post0 (commentStage settings deps.hasCommentFetcher
            env.commentPages post0 comments0)
        have hvs : viewStage deps.hasViewFetcher env.viewOutcome
            (truncateStage settings post0 (commentStage settings
              deps.hasCommentFetcher env.commentPages post0
              comments0)).1 =
            ((truncateStage settings post0 (commentStage settings
              deps.hasCommentFetcher env.commentPages post0
              comments0)).1, none) :=
          viewStage_error_frame _ _ _ msg (by rw [t9]; exact hfail)
        rw [hvs] at hres
        obtain ⟨p1, p2, p3, p4, p5, p6, p7, p8⟩ := profileStage_frame
          deps.hasProfileFetcher env.profileOracle settings
          (truncateStage settings post0 (commentStage settings
            deps.hasCommentFetcher env.commentPages post0 comments0)).1
          none
          (truncateStage settings post0 (commentStage settings
            deps.hasCommentFetcher env.commentPages post0 comments0)).2
        rw [hres]
        exact ⟨p1.trans t1, p2.trans t2, p3.trans t3, p4.trans t4,
          p5.trans t5, p6.trans t6, p7.trans t7, p8.trans t8⟩

theorem commentStage_error (settings : Settings) (hcf : Bool)
    (pages : List HttpOutcome) (post : InstagramPost)
    (comments : List InstagramComment) (msg : String)
    (hf : fetch_comments post.shortcode (settings.max_comments : Int)
      (comments.filterMap (fun c => if c.id ≠ "" then some c.id else none))
      pages = .error msg) :
    commentStage settings hcf pages post comments = comments := by
  rw [commentStage]
  split
  · rw [hf]
  · rfl

theorem commentStage_false (settings : Settings)
    (pages : List HttpOutcome) (post : InstagramPost)
    (comments : List InstagramComment) :
    commentStage settings false pages post comments = comments := by
  rw [commentStage]
  simp

theorem fetch_profile_netFail (u : String) (oracle : Nat → HttpOutcome)
    (h : ∀ n, oracle n = .netFail) :
    ProfileFetcher.fetch_profile u initProfileState oracle =
      .error "Network error while resolving username" ∨
    ProfileFetcher.fetch_profile u initProfileState oracle =
      .ok (none, initProfileState) := by
  rw [ProfileFetcher.fetch_profile]
  simp only []
  by_cases hu : pyStrip u = ""
  · rw [if_pos hu]
    exact Or.inr rfl
  · rw [if_neg hu]
    have hl : (initProfileState.profile_cache).lookup (pyLower (pyStrip u)) =
        none := rfl
    rw [hl]
    rw [ProfileFetcher._resolve_user_id]
    simp only []
    have hl2 : (initProfileState.id_cache).lookup (pyLower (pyStrip u)) =
        none := rfl
    rw [hl2, h initProfileState.requests]
    exact Or.inl rfl

theorem resolveProfilesLoop_netFail (oracle : Nat → HttpOutcome)
    (h : ∀ n, oracle n = .netFail) (us : List String) :
    resolveProfilesLoop oracle us [] initProfileState =
      ([], initProfileState) := by
  induction us with
  | nil => rfl
  | cons u rest ih =>
    rw [resolveProfilesLoop]
    have hl : (([] : List (String × InstagramProfile)).lookup
        (pyLower u)).isSome = false := rfl
    rw [hl]
    simp only [Bool.false_eq_true, if_false]
    rcases fetch_profile_netFail u oracle h with hf | hf <;> rw [hf] <;>
      exact ih

theorem attachProfiles_nil (comments : List InstagramComment) :
    attachProfiles [] comments = comments := by
  rw [attachProfiles]
  induction comments with
  | nil => rfl
  | cons c rest ih => simp_all [List.lookup]

theorem ownerStage_netFail (oracle : Nat → HttpOutcome)
    (h : ∀ n, oracle n = .netFail) (p : InstagramPost)
    (ow : Option OwnerInfo) :
    ownerStage oracle p ow [] initProfileState = p := by
  rw [ownerStage.eq_def]
  simp only []
  split
  · rfl
  · rename_i ou hou
    have hl : (([] : List (String × InstagramProfile)).lookup
        (pyLower ou)) = none := rfl
    rw [hl]
    rcases fetch_profile_netFail ou oracle h with hf | hf <;> rw [hf]

theorem profileStage_netFail (hp : Bool) (oracle : Nat → HttpOutcome)
    (h : ∀ n, oracle n = .netFail) (settings : Settings)
    (p : InstagramPost) (ow : Option OwnerInfo)
    (c : List InstagramComment) :
    profileStage hp oracle settings p ow c = (p, c) := by
  rw [profileStage]
  cases hp with
  | false => rfl
  | true =>
    simp only [if_pos]
    rw [resolveProfilesLoop_netFail oracle h]
    rw [attachProfiles_nil, ownerStage_netFail oracle h]

/-- Pointwise-equal stage pipelines give equal scrapes. -/
theorem scrape_congr (settings : Settings) (d1 d2 : ScrapeDeps)
    (env : ScrapeEnv) (url : String) (dv : Bool)
    (hstage : ∀ payload post0 comments0,
      env.infoResult = .ok payload →
      parse_info_payload payload settings.include_comments
        settings.max_comments = .ok (post0, comments0) →
      profileStage d1.hasProfileFetcher env.profileOracle settings
        (viewStage d1.hasViewFetcher env.viewOutcome
          (truncateStage settings post0 (commentStage settings
            d1.hasCommentFetcher env.commentPages post0 comments0)).1).1
        (viewStage d1.hasViewFetcher env.viewOutcome
          (truncateStage settings post0 (commentStage settings
            d1.hasCommentFetcher env.commentPages post0 comments0)).1).2
        (truncateStage settings post0 (commentStage settings
          d1.hasCommentFetcher env.commentPages post0 comments0)).2 =
      profileStage d2.hasProfileFetcher env.profileOracle settings
        (viewStage d2.hasViewFetcher env.viewOutcome
          (truncateStage settings post0 (commentStage settings
            d2.hasCommentFetcher env.commentPages post0 comments0)).1).1
        (viewStage d2.hasViewFetcher env.viewOutcome
          (truncateStage settings post0 (commentStage settings
            d2.hasCommentFetcher env.commentPages post0 comments0)).1).2
        (truncateStage settings post0 (commentStage settings
          d2.hasCommentFetcher env.commentPages post0 comments0)).2) :
    scrape settings d1 env url dv = scrape settings d2 env url dv := by
  rw [scrape, scrape]
  generalize hpu : parse_instagram_url url = pu
  cases pu with
  | error e => rfl
  | ok parsed =>
    simp only []
    generalize hinf : env.infoResult = inf
    cases inf with
    | error e => rfl
    | ok payload =>
      simp only []
      generalize hpp : parse_info_payload payload settings.include_comments
        settings.max_comments = pp
      cases pp with
      | error e => rfl
      | ok pc =>
        obtain ⟨post0, comments0⟩ := pc
        simp only []
        by_cases hvurl : post0.video_url.getD "" = ""
        · simp only [if_pos hvurl]
        · simp only [if_neg hvurl]
          rw [hstage payload post0 comments0 hinf hpp]

/-- C1: the three enrichment-local error kinds are absorbed — a scrape
whose comment, metrics, or profile stage fails equals the scrape with
that collaborator absent, and a scrape that reaches the enrichment
stages with a working (or unrequested) download returns a result —
while InvalidUrl, RequestError, ParsingError and (when the download was
requested) MediaDownloadError abort the scrape as typed failures. -/
theorem C1_enrichment_isolation_and_terminal_aborts :
    (∀ (settings : Settings) (deps : ScrapeDeps) (env : ScrapeEnv)
      (url : String) (dv : Bool) (e : String),
      parse_instagram_url url = .error e →
      scrape settings deps env url dv = .error (.invalidUrl e)) ∧
    (∀ (settings : Settings) (deps : ScrapeDeps) (env : ScrapeEnv)
      (url : String) (dv : Bool) (parsed : ParsedInstagramUrl) (e : String),
      parse_instagram_url url = .ok parsed → env.infoResult = .error e →
      scrape settings deps env url dv = .error (.requestError e)) ∧
    (∀ (settings : Settings) (deps : ScrapeDeps) (env : ScrapeEnv)
      (url : String) (dv : Bool) (parsed : ParsedInstagramUrl)
      (payload : Json) (e : String),
      parse_instagram_url url = .ok parsed → env.infoResult = .ok payload →
      parse_info_payload payload settings.include_comments
        settings.max_comments = .error e →
      scrape settings deps env url dv = .error (.parsingError e)) ∧
    (∀ (settings : Settings) (deps : ScrapeDeps) (env : ScrapeEnv)
      (url : String) (parsed : ParsedInstagramUrl) (payload : Json)
      (post0 : InstagramPost) (comments0 : List InstagramComment),
      parse_instagram_url url = .ok parsed → env.infoResult = .ok payload →
      parse_info_payload payload settings.include_comments
        settings.max_comments = .ok (post0, comments0) →
      post0.video_url.getD "" ≠ "" → env.downloadOk = false →
      scrape settings deps env url true =
        .error (.mediaDownloadError "Failed to download Instagram video")) ∧
    (∀ (settings : Settings) (deps : ScrapeDeps) (env : ScrapeEnv)
      (url : String) (dv : Bool) (payload : Json) (post0 : InstagramPost)
      (comments0 : List InstagramComment) (msg : String),
      env.infoResult = .ok payload →
      parse_info_payload payload settings.include_comments
        settings.max_comments = .ok (post0, comments0) →
      fetch_comments post0.shortcode (settings.max_comments : Int)
        (comments0.filterMap (fun c => if c.id ≠ "" then some c.id
          else none)) env.commentPages = .error msg →
      scrape settings deps env url dv =
        scrape settings { deps with hasCommentFetcher := false } env url dv) ∧
    (∀ (settings : Settings) (deps : ScrapeDeps) (env : ScrapeEnv)
      (url : String) (dv : Bool),
      (∀ sc, ∃ m, ViewFetcher.fetch_media_details sc env.viewOutcome =
        .error m) →
      scrape settings deps env url dv =
        scrape settings { deps with hasViewFetcher := false } env url dv) ∧
    (∀ (settings : Settings) (deps : ScrapeDeps) (env : ScrapeEnv)
      (url : String) (dv : Bool),
      (∀ n, env.profileOracle n = .netFail) →
      scrape settings deps env url dv =
        scrape settings { deps with hasProfileFetcher := false } env url dv) ∧
    (∀ (settings : Settings) (deps : ScrapeDeps) (env : ScrapeEnv)
      (url : String) (dv : Bool) (parsed : ParsedInstagramUrl)
      (payload : Json) (post0 : InstagramPost)
      (comments0 : List InstagramComment),
      parse_instagram_url url = .ok parsed → env.infoResult = .ok payload →
      parse_info_payload payload settings.include_comments
        settings.max_comments = .ok (post0, comments0) →
      post0.video_url.getD "" ≠ "" → (dv = true → env.downloadOk = true) →
      ∃ r, scrape settings deps env url dv = .ok r) := by
  refine ⟨?_, ?_, ?_, ?_, ?_, ?_, ?_, ?_⟩
  · intro settings deps env url dv e hpu
    rw [scrape, hpu]
  · intro settings deps env url dv parsed e hpu hinf
    rw [scrape, hpu]
    simp only []
    rw [hinf]
  · intro settings deps env url dv parsed payload e hpu hinf hpp
    rw [scrape, hpu]
    simp only []
    rw [hinf]
    simp only []
    rw [hpp]
  · intro settings deps env url parsed payload post0 comments0 hpu hinf
      hpp hvurl hdl
    rw [scrape, hpu]
    simp only []
    rw [hinf]
    simp only []
    rw [hpp]
    simp only []
    rw [if_neg hvurl, if_pos (by simp [hdl])]
  · intro settings deps env url dv payload post0 comments0 msg hinf hpp hf
    refine scrape_congr settings deps _ env url dv ?_
    intro payload2 post2 comments2 hinf2 hpp2
    rw [hinf] at hinf2
    injection hinf2 with hinf2
    subst hinf2
    rw [hpp] at hpp2
    injection hpp2 with hpp2
    injection hpp2 with hp hc
    subst hp
    subst hc
    simp only []
    rw [commentStage_error settings deps.hasCommentFetcher env.commentPages
      post0 comments0 msg hf]
    rw [commentStage_error settings false env.commentPages
      post0 comments0 msg hf]
  · intro settings deps env url dv hvf
    refine scrape_congr settings deps _ env url dv ?_
    intro payload post0 comments0 _ _
    simp only []
    obtain ⟨m, hm⟩ := hvf (truncateStage settings post0 (commentStage
      settings deps.hasCommentFetcher env.commentPages post0
      comments0)).1.shortcode
    rw [viewStage_error_frame _ _ _ _ hm, viewStage_error_frame _ _ _ _ hm]
  · intro settings deps env url dv hpo
    refine scrape_congr settings deps _ env url dv ?_
    intro payload post0 comments0 _ _
    simp only []
    rw [profileStage_netFail _ _ hpo, profileStage_netFail _ _ hpo]
  · intro settings deps env url dv parsed payload post0 comments0 hpu hinf
      hpp hvurl hdl
    rw [scrape, hpu]
    simp only []
    rw [hinf]
    simp only []
    rw [hpp]
    simp only []
    rw [if_neg hvurl]
    rw [if_neg (by
      intro hcontra
      exact absurd (hdl hcontra.1) hcontra.2)]
    exact ⟨_, rfl⟩

def scenePayload : Json :=
  Json.obj [("id", Json.str "ABC"), ("url", Json.str "https://cdn/video.mp4"),
            ("comment_count", Json.num 4),
            ("comments", Json.arr [Json.obj [("id", Json.str "1"),
              ("author", Json.str "bob")]])]

def sceneSettings : Settings :=
  { include_comments := true, max_comments := 5, media_directory := "media" }

def sceneEnv : ScrapeEnv :=
  { infoResult := .ok scenePayload, commentPages := [],
    viewOutcome := .response (some 404) (some (Json.obj [])),
    profileOracle := fun _ => .netFail, downloadOk := true }

def sceneDeps : ScrapeDeps :=
  { hasCommentFetcher := true, hasViewFetcher := true,
    hasProfileFetcher := true }

def scenePost : InstagramPost :=
  { shortcode := "ABC", caption := none, username := "", full_name := none,
    like_count := none, comment_count := some 4, view_count := none,
    taken_at := none, video_duration := none,
    video_url := some "https://cdn/video.mp4", thumbnail_url := none }

def sceneComments : List InstagramComment :=
  [{ id := "1", username := "bob", text := "" }]

def sceneRes : ScrapedMedia :=
  { post := scenePost, comments := sceneComments, video_path := none,
    fetched_comment_count := 1 }

theorem C3_comment_count_monotone_witness :
    scenePost.comment_count.getD 0 ≤ sceneRes.post.comment_count.getD 0 ∧
    (scenePost.comment_count.isSome → sceneRes.post.comment_count.isSome) :=
  C3_comment_count_monotone sceneSettings sceneDeps sceneEnv
    "https://instagram.com/reel/ABC/" false scenePayload scenePost
    sceneComments sceneRes rfl rfl rfl

theorem C6_view_failure_frame_witness :
    sceneRes.post.caption = scenePost.caption ∧
    sceneRes.post.hashtags = scenePost.hashtags ∧
    sceneRes.post.mentions = scenePost.mentions ∧
    sceneRes.post.like_count = scenePost.like_count ∧
    sceneRes.post.taken_at = scenePost.taken_at ∧
    sceneRes.post.video_duration = scenePost.video_duration ∧
    sceneRes.post.video_url = scenePost.video_url ∧
    sceneRes.post.thumbnail_url = scenePost.thumbnail_url :=
  C6_view_failure_frame sceneSettings sceneDeps sceneEnv
    "https://instagram.com/reel/ABC/" false scenePayload scenePost
    sceneComments sceneRes
    "Instagram responded with an error status while fetching media info"
    rfl rfl rfl rfl

theorem C1_enrichment_isolation_and_terminal_aborts_witness :
    scrape sceneSettings sceneDeps sceneEnv "nonsense" false =
      .error (.invalidUrl "URL must use http or https scheme") ∧
    scrape sceneSettings sceneDeps sceneEnv
        "https://instagram.com/reel/ABC/" false =
      scrape sceneSettings
        { hasCommentFetcher := true, hasViewFetcher := true,
          hasProfileFetcher := false }
        sceneEnv "https://instagram.com/reel/ABC/" false ∧
    ∃ r, scrape sceneSettings sceneDeps sceneEnv
      "https://instagram.com/reel/ABC/" false = .ok r :=
  ⟨C1_enrichment_isolation_and_terminal_aborts.1 sceneSettings sceneDeps
      sceneEnv "nonsense" false "URL must use http or https scheme" rfl,
   C1_enrichment_isolation_and_terminal_aborts.2.2.2.2.2.2.1 sceneSettings
      sceneDeps sceneEnv "https://instagram.com/reel/ABC/" false
      (fun _ => rfl),
   C1_enrichment_isolation_and_terminal_aborts.2.2.2.2.2.2.2 sceneSettings
      sceneDeps sceneEnv "https://instagram.com/reel/ABC/" false
      ⟨"reel", "ABC", "https://www.instagram.com/reel/ABC/"⟩ scenePayload
      scenePost sceneComments rfl rfl rfl (by decide) (by decide)⟩

end VideoAnalyzer
